import Mathlib

/-!
# libwebsockets `lib/ssl.c`: a shallow embedding and its verified properties

The TLS integration layer of libwebsockets (`src/lib/ssl.c`, OpenSSL build, i.e.
`USE_WOLFSSL` undefined and `LWS_NO_SERVER` / `LWS_NO_CLIENT` undefined).

Conventions of the embedding

* C pointers are `Option Nat`: `none` is `NULL`, `some a` is the object at address `a`.
* C `int` values are `Int`; every comparison of the source is kept as it is written.
* The TLS engine and the other collaborators (`SSL_read`, `SSL_accept`, `recv`,
  `lws_change_pollfd`, ...) are not part of `ssl.c`: what they answer during one call is
  an explicit argument of the embedded function, and every call made to a collaborator
  that changes something outside the connection is appended to a list of `Call`s.
* Integer constants that come from headers outside `src/` are the fields of `Consts`.
-/

namespace LwsSsl

/-! ## Constants of the headers -/

/-- The integer constants `ssl.c` takes from `private-libwebsockets.h`, `libwebsockets.h`,
the OpenSSL headers and the platform headers.  None of them is defined in `ssl.c`, so the
embedding is parametric in their values. -/
structure Consts where
  LWS_SSL_CAPABLE_ERROR : Int
  LWS_SSL_CAPABLE_MORE_SERVICE : Int
  SSL_ERROR_NONE : Int
  SSL_ERROR_WANT_READ : Int
  SSL_ERROR_WANT_WRITE : Int
  X509_V_OK : Int
  X509_V_ERR_DEPTH_ZERO_SELF_SIGNED_CERT : Int
  X509_V_ERR_SELF_SIGNED_CERT_IN_CHAIN : Int
  LWS_CLOSE_STATUS_NOSTATUS : Int
  LWS_POLLIN : Nat
  LWS_POLLOUT : Nat
  LWS_EAGAIN : Int
  LWS_EWOULDBLOCK : Int
  LWS_SOCK_INVALID : Int
  SSL_TLSEXT_ERR_OK : Int
  SSL_TLSEXT_ERR_NOACK : Int
  CONTEXT_PORT_NO_LISTEN : Int

/-- The values these constants have with OpenSSL 1.0.x on Linux; used for the concrete
evaluations only. -/
def linuxOpenSSL : Consts where
  LWS_SSL_CAPABLE_ERROR := -1
  LWS_SSL_CAPABLE_MORE_SERVICE := -2
  SSL_ERROR_NONE := 0
  SSL_ERROR_WANT_READ := 2
  SSL_ERROR_WANT_WRITE := 3
  X509_V_OK := 0
  X509_V_ERR_DEPTH_ZERO_SELF_SIGNED_CERT := 18
  X509_V_ERR_SELF_SIGNED_CERT_IN_CHAIN := 19
  LWS_CLOSE_STATUS_NOSTATUS := 0
  LWS_POLLIN := 1
  LWS_POLLOUT := 4
  LWS_EAGAIN := 11
  LWS_EWOULDBLOCK := 11
  LWS_SOCK_INVALID := -1
  SSL_TLSEXT_ERR_OK := 0
  SSL_TLSEXT_ERR_NOACK := 3
  CONTEXT_PORT_NO_LISTEN := -1

/-! ## The per-thread list of connections with buffered plaintext -/

/-- The part of the memory the pending-read list lives in, for one service thread:
`pt->pending_read_list` and, for every connection `wsi` of that thread (named by its
address), the fields `wsi->pending_read_list_prev` and `wsi->pending_read_list_next`. -/
structure PendingState where
  pending_read_list : Option Nat
  pending_read_list_prev : Nat → Option Nat
  pending_read_list_next : Nat → Option Nat

/-- `lws_ssl_remove_wsi_from_buffered_list` (ssl.c 829-855), statement by statement. -/
def lws_ssl_remove_wsi_from_buffered_list (st : PendingState) (wsi : Nat) : PendingState :=
  if st.pending_read_list_prev wsi = none ∧ st.pending_read_list_next wsi = none ∧
      st.pending_read_list ≠ some wsi then
    -- we are not on the list
    st
  else
    -- point previous guy's next to our next
    let st1 : PendingState :=
      match st.pending_read_list_prev wsi with
      | none => { st with pending_read_list := st.pending_read_list_next wsi }
      | some p =>
        { st with pending_read_list_next :=
            Function.update st.pending_read_list_next p (st.pending_read_list_next wsi) }
    -- point next guy's previous to our previous
    let st2 : PendingState :=
      match st1.pending_read_list_next wsi with
      | none => st1
      | some nx =>
        { st1 with pending_read_list_prev :=
            Function.update st1.pending_read_list_prev nx (st1.pending_read_list_prev wsi) }
    let st3 : PendingState :=
      { st2 with pending_read_list_prev := Function.update st2.pending_read_list_prev wsi none }
    { st3 with pending_read_list_next := Function.update st3.pending_read_list_next wsi none }

/-- What the TLS engine answers during one `lws_ssl_capable_read`: the result of
`SSL_read`, the code `SSL_get_error` gives for it, and the count `SSL_pending` reports
after the read. -/
structure ReadEngine where
  SSL_read : Int
  SSL_get_error : Int
  SSL_pending : Int

/-- `lws_ssl_capable_read` (ssl.c 857-913).  `ssl` is `wsi->ssl`; `no_ssl` stands for
`lws_ssl_capable_read_no_ssl`, which is defined outside `ssl.c`.  The result is the
returned `int` and the memory of the pending-read list after the call. -/
def lws_ssl_capable_read (k : Consts)
    (no_ssl : PendingState → Nat → Int → Int × PendingState)
    (eng : ReadEngine) (ssl : Option Nat) (st : PendingState) (wsi : Nat) (len : Int) :
    Int × PendingState :=
  if ssl = none then no_ssl st wsi len
  else
    let n := eng.SSL_read
    -- manpage: returning 0 means connection shut down
    if n = 0 then (k.LWS_SSL_CAPABLE_ERROR, st)
    else if n < 0 then
      let e := eng.SSL_get_error
      if e = k.SSL_ERROR_WANT_READ ∨ e = k.SSL_ERROR_WANT_WRITE then
        (k.LWS_SSL_CAPABLE_MORE_SERVICE, st)
      else (k.LWS_SSL_CAPABLE_ERROR, st)
    else if n ≠ len then (n, lws_ssl_remove_wsi_from_buffered_list st wsi)
    else if ssl = none then (n, lws_ssl_remove_wsi_from_buffered_list st wsi)
    else if eng.SSL_pending = 0 then (n, lws_ssl_remove_wsi_from_buffered_list st wsi)
    else if st.pending_read_list_next wsi ≠ none then (n, st)
    else if st.pending_read_list_prev wsi ≠ none then (n, st)
    else if st.pending_read_list = some wsi then (n, st)
    else
      -- add us to the linked list of guys with pending ssl
      let st1 : PendingState :=
        match st.pending_read_list with
        | none => st
        | some h =>
          { st with pending_read_list_prev :=
              Function.update st.pending_read_list_prev h (some wsi) }
      let st2 : PendingState :=
        { st1 with pending_read_list_next :=
            Function.update st1.pending_read_list_next wsi st1.pending_read_list }
      let st3 : PendingState :=
        { st2 with pending_read_list_prev :=
            Function.update st2.pending_read_list_prev wsi none }
      (n, { st3 with pending_read_list := some wsi })

/-- The successor of `x` in the sequence `l` (`none` when `x` is last or not in `l`). -/
def nextIn : List Nat → Nat → Option Nat
  | [], _ => none
  | a :: t, x => if a = x then t.head? else nextIn t x

/-- The predecessor of `x` in the sequence `l` (`none` when `x` is first or not in `l`). -/
def prevIn (l : List Nat) (x : Nat) : Option Nat := nextIn l.reverse x

/-- The memory `st` holds a well-formed pending-read list whose members are, in order,
the connections of `l`: no connection occurs twice, the head pointer is the first member,
every member's `next` / `prev` field is its successor / predecessor in `l` (so the head has
no predecessor and the links are mutually consistent), and a connection that is not a
member has both fields `NULL`. -/
structure Represents (st : PendingState) (l : List Nat) : Prop where
  nodup : l.Nodup
  head : st.pending_read_list = l.head?
  next : ∀ x, st.pending_read_list_next x = nextIn l x
  prev : ∀ x, st.pending_read_list_prev x = prevIn l x

/-- The memory in which the list is empty and every connection is unlinked. -/
def emptyPending : PendingState where
  pending_read_list := none
  pending_read_list_prev := fun _ => none
  pending_read_list_next := fun _ => none

/-- The memory holding exactly the list `l`. -/
def pendingOf (l : List Nat) : PendingState where
  pending_read_list := l.head?
  pending_read_list_prev := prevIn l
  pending_read_list_next := nextIn l

/-- The member sequence read off the memory by following `next` from the head, at most
`fuel` steps. -/
def walk (st : PendingState) : Nat → Option Nat → List Nat
  | 0, _ => []
  | _, none => []
  | fuel + 1, some a => a :: walk st fuel (st.pending_read_list_next a)

/-! ## Connections, virtual hosts and the calls made to collaborators -/

/-- The values of `wsi->mode` that `ssl.c` names (the enumeration is declared in
`private-libwebsockets.h`); `other` stands for every remaining mode. -/
inductive ConnMode where
  | LWSCM_HTTP_SERVING
  | LWSCM_SSL_INIT
  | LWSCM_SSL_ACK_PENDING
  | LWSCM_WSCL_ISSUE_HANDSHAKE
  | LWSCM_WSCL_WAITING_SSL
  | other (tag : Nat)
  deriving DecidableEq, Repr

/-- The timeout reasons `ssl.c` arms. -/
inductive PendingTimeout where
  | PENDING_TIMEOUT_SSL_ACCEPT
  | PENDING_TIMEOUT_ESTABLISH_WITH_SERVER
  deriving DecidableEq, Repr

/-- The reasons with which `ssl.c` invokes `vhost->protocols[0].callback`. -/
inductive CallbackReason where
  | LWS_CALLBACK_OPENSSL_PERFORM_CLIENT_CERT_VERIFICATION
  | LWS_CALLBACK_OPENSSL_LOAD_EXTRA_CLIENT_VERIFY_CERTS
  | LWS_CALLBACK_OPENSSL_LOAD_EXTRA_SERVER_VERIFY_CERTS
  | LWS_CALLBACK_OPENSSL_CONTEXT_REQUIRES_PRIVATE_KEY
  deriving DecidableEq, Repr

/-- A call that `ssl.c` makes to the TLS engine or to another part of the library and that
acts outside the fields of the connection; the embedded functions append the calls they
make, in program order, to the `calls` of the state.  Arguments are the addresses (or
values) the source passes. -/
inductive Call where
  | SSL_new (ctx : Option Nat)
  | SSL_set_ex_data (ssl : Option Nat) (data : Nat)
  | SSL_set_fd (ssl : Option Nat) (fd : Int)
  | SSL_set_mode (ssl : Option Nat)
  | BIO_set_nbio (bio : Nat)
  | SSL_accept (ssl : Option Nat)
  | SSL_connect (ssl : Option Nat)
  | SSL_shutdown (ssl : Option Nat)
  | SSL_free (ssl : Option Nat)
  | SSL_set_SSL_CTX (ctx : Option Nat)
  | compatible_close (fd : Int)
  | insert_wsi_socket_into_fds
  | lws_set_timeout (reason : PendingTimeout) (secs : Int)
  | lws_http2_configure_if_upgraded
  | lws_callback_on_writable
  | lws_close_free_wsi (status : Int)
  | SSL_library_init
  | OpenSSL_add_all_algorithms
  | SSL_load_error_strings
  | SSL_CTX_new
  | SSL_CTX_free (ctx : Nat)
  | SSL_CTX_set_options (ctx : Option Nat)
  | SSL_CTX_set_cipher_list (ctx : Option Nat)
  | SSL_CTX_set_default_verify_paths (ctx : Option Nat)
  | SSL_CTX_load_verify_locations (ctx : Option Nat)
  | SSL_CTX_use_certificate_chain_file (ctx : Option Nat)
  | SSL_CTX_set_default_passwd_cb_userdata (ctx : Option Nat)
  | SSL_CTX_set_default_passwd_cb (ctx : Option Nat)
  | SSL_CTX_use_PrivateKey_file (ctx : Option Nat)
  | SSL_CTX_check_private_key (ctx : Option Nat)
  | protocol_callback (reason : CallbackReason)
  | ERR_remove_thread_state
  | ERR_free_strings
  | EVP_cleanup
  | CRYPTO_cleanup_all_ex_data
  | lws_set_blocking_send
  | SSL_set_tlsext_host_name (ssl : Option Nat)
  | BIO_new_socket (sock : Int)
  | SSL_set_bio (ssl : Option Nat) (bio : Option Nat)
  | BIO_set_nbio_client_bio (bio : Option Nat)
  deriving DecidableEq, Repr

/-- A connection as `ssl.c` sees it.  `mode`, `ssl`, `use_ssl`, `redirect_to_https`,
`sock`, `context` and `vhost` are the fields of `struct lws` of these names (`context` and
`vhost` are the addresses held); `events` is the `events` word of the connection's entry in
the poll table, which `lws_change_pollfd` edits; `calls` is the record of collaborator
calls made so far. -/
structure Conn where
  mode : ConnMode
  ssl : Option Nat
  use_ssl : Int
  redirect_to_https : Bool
  sock : Int
  context : Nat
  vhost : Nat
  events : Nat
  calls : List Call
  deriving DecidableEq, Repr

/-- The fields of `struct lws_vhost` that `ssl.c` reads or writes, with
`context_do_ssl_global_init` standing for
`lws_check_opt(vhost->context->options, LWS_SERVER_OPTION_DO_SSL_GLOBAL_INIT)`. -/
structure Vhost where
  name : String
  listen_port : Int
  use_ssl : Bool
  allow_non_ssl_on_ssl_port : Bool
  ssl_ctx : Option Nat
  ssl_client_ctx : Option Nat
  user_supplied_ssl_ctx : Bool
  context_do_ssl_global_init : Bool
  deriving DecidableEq, Repr

/-- Modelled from the spec: `lws_change_pollfd(wsi, _and, _or)`, which re-arms the readiness
registration of a connection, is defined in `pollfd.c`, not in `ssl.c`; its effect on the
registered events is taken to be `events = (events & ~_and) | _or`.  On
natural numbers the bits of `events` outside `_and` are `events ^^^ (events &&& _and)`
(see `lws_change_pollfd_testBit`).  Whether the call succeeds (returns 0) is an answer of
the environment. -/
def lws_change_pollfd (events and_mask or_mask : Nat) : Nat :=
  (events ^^^ (events &&& and_mask)) ||| or_mask

/-- Some event of `mask` is requested in the poll registration `events`. -/
def Requested (events mask : Nat) : Prop := events &&& mask ≠ 0

instance (events mask : Nat) : Decidable (Requested events mask) :=
  inferInstanceAs (Decidable (events &&& mask ≠ 0))

/-! ## `lws_ssl_close` -/

/-- `lws_ssl_close` (ssl.c 946-961); `fd` is what `SSL_get_fd(wsi->ssl)` answers. -/
def lws_ssl_close (fd : Int) (c : Conn) : Int × Conn :=
  if c.ssl = none then (0, c) -- not handled
  else
    (1, { c with
      calls := c.calls ++ [Call.SSL_shutdown c.ssl, Call.compatible_close fd,
        Call.SSL_free c.ssl]
      ssl := none }) -- handled

/-! ## The server-side handshake -/

/-- What the environment answers during one `lws_server_socket_service_ssl`. -/
structure AcceptEnv where
  /-- The result of `SSL_new`. -/
  SSL_new : Option Nat
  /-- The results of `SSL_get_rbio` and `SSL_get_wbio`. -/
  rbio : Option Nat
  wbio : Option Nat
  /-- The result of `insert_wsi_socket_into_fds` and the events it registers. -/
  insert_wsi_socket_into_fds : Int
  inserted_events : Nat
  /-- The result of `lws_change_pollfd(wsi, LWS_POLLOUT, 0)`. -/
  change_pollfd_clear : Int
  /-- The result of the `lws_change_pollfd` call of the `go_again` part. -/
  change_pollfd_rearm : Int
  /-- The result of the `recv(..., MSG_PEEK)`, the byte `pt->serv_buf[0]` after it (an
  `unsigned char`, so a natural number), and `LWS_ERRNO` after it. -/
  recv : Int
  serv_buf0 : Nat
  errno : Int
  /-- The result of `SSL_accept` and of `SSL_get_error` on it. -/
  SSL_accept : Int
  SSL_get_error : Int
  /-- The values of `context->timeout_secs` and of
  `lws_check_opt(context->options, LWS_SERVER_OPTION_REDIRECT_HTTP_TO_HTTPS)`. -/
  timeout_secs : Int
  redirect_http_to_https : Bool

/-- The label `accepted` of `lws_server_socket_service_ssl` (ssl.c 1120-1133). -/
def service_ssl_accepted (env : AcceptEnv) (c : Conn) : Int × Conn :=
  (0, { c with
    calls := c.calls ++ [Call.lws_set_timeout
        PendingTimeout.PENDING_TIMEOUT_ESTABLISH_WITH_SERVER env.timeout_secs,
      Call.lws_http2_configure_if_upgraded]
    mode := ConnMode.LWSCM_HTTP_SERVING })

/-- The label `go_again` of `lws_server_socket_service_ssl` (ssl.c 1102-1118), entered
with the engine error `m`. -/
def service_ssl_go_again (k : Consts) (env : AcceptEnv) (m : Int) (c : Conn) : Int × Conn :=
  if m = k.SSL_ERROR_WANT_READ then
    if env.change_pollfd_rearm ≠ 0 then (1, c)
    else (0, { c with events := lws_change_pollfd c.events 0 k.LWS_POLLIN })
  else if m = k.SSL_ERROR_WANT_WRITE then
    if env.change_pollfd_rearm ≠ 0 then (1, c)
    else (0, { c with events := lws_change_pollfd c.events 0 k.LWS_POLLOUT })
  else (1, c)

/-- The case `LWSCM_SSL_ACK_PENDING` of `lws_server_socket_service_ssl`
(ssl.c 1033-1118), which the case `LWSCM_SSL_INIT` falls through to. -/
def service_ssl_ack_pending (k : Consts) (vh : Vhost) (env : AcceptEnv) (c : Conn) :
    Int × Conn :=
  if env.change_pollfd_clear ≠ 0 then (1, c)
  else
    let c1 : Conn := { c with events := lws_change_pollfd c.events k.LWS_POLLOUT 0 }
    let n := env.recv
    if vh.allow_non_ssl_on_ssl_port ∧ n ≥ 1 ∧ env.serv_buf0 ≥ 32 then
      -- not a TLS record: kill the SSL for this connection and serve it as HTTP
      let c2 : Conn := { c1 with use_ssl := 0 }
      let c3 : Conn :=
        { c2 with calls := c2.calls ++ [Call.SSL_shutdown c2.ssl, Call.SSL_free c2.ssl] }
      let c4 : Conn := { c3 with ssl := none }
      let c5 : Conn :=
        if env.redirect_http_to_https then { c4 with redirect_to_https := true } else c4
      service_ssl_accepted env c5
    else if vh.allow_non_ssl_on_ssl_port ∧ n = 0 then (0, c1)
    else if vh.allow_non_ssl_on_ssl_port ∧ n < 0 ∧
        (env.errno = k.LWS_EAGAIN ∨ env.errno = k.LWS_EWOULDBLOCK) then
      service_ssl_go_again k env k.SSL_ERROR_WANT_READ c1
    else
      -- normal SSL connection processing path
      let c2 : Conn := { c1 with calls := c1.calls ++ [Call.SSL_accept c1.ssl] }
      if env.SSL_accept = 1 then service_ssl_accepted env c2
      else service_ssl_go_again k env env.SSL_get_error c2

/-- `lws_server_socket_service_ssl` (ssl.c 965-1137).  `vh` is `wsi->vhost`, and
`LWS_SSL_ENABLED(wsi->vhost)` is `vh.use_ssl`. -/
def lws_server_socket_service_ssl (k : Consts) (vh : Vhost) (env : AcceptEnv) (c : Conn)
    (accept_fd : Int) : Int × Conn :=
  if ¬ vh.use_ssl then (0, c)
  else
    match c.mode with
    | ConnMode.LWSCM_SSL_INIT =>
      let c1 : Conn := { c with ssl := env.SSL_new, calls := c.calls ++ [Call.SSL_new vh.ssl_ctx] }
      if c1.ssl = none then
        if accept_fd ≠ k.LWS_SOCK_INVALID then
          (1, { c1 with calls := c1.calls ++ [Call.compatible_close accept_fd] })
        else (1, c1)
      else
        let c2 : Conn :=
          { c1 with calls := c1.calls ++
              [Call.SSL_set_ex_data c1.ssl c1.context, Call.SSL_set_fd c1.ssl accept_fd,
                Call.SSL_set_mode c1.ssl] ++
              (match env.rbio with
                | some b => [Call.BIO_set_nbio b]
                | none => []) ++
              (match env.wbio with
                | some b => [Call.BIO_set_nbio b]
                | none => []) }
        let c3 : Conn := { c2 with mode := ConnMode.LWSCM_SSL_ACK_PENDING }
        let c4 : Conn := { c3 with calls := c3.calls ++ [Call.insert_wsi_socket_into_fds] }
        if env.insert_wsi_socket_into_fds ≠ 0 then (1, c4)
        else
          let c5 : Conn :=
            { c4 with
              events := env.inserted_events
              calls := c4.calls ++ [Call.lws_set_timeout
                PendingTimeout.PENDING_TIMEOUT_SSL_ACCEPT env.timeout_secs] }
          -- fallthru
          service_ssl_ack_pending k vh env c5
    | ConnMode.LWSCM_SSL_ACK_PENDING => service_ssl_ack_pending k vh env c
    | _ => (0, c)

/-- The connection as it is when control reaches the case `LWSCM_SSL_ACK_PENDING`: the
connection itself when it is already in that mode, and the connection as the case
`LWSCM_SSL_INIT` leaves it before falling through otherwise. -/
def ack_pending_entry (vh : Vhost) (env : AcceptEnv) (c : Conn) (accept_fd : Int) : Conn :=
  if c.mode = ConnMode.LWSCM_SSL_INIT then
    { c with
      ssl := env.SSL_new
      mode := ConnMode.LWSCM_SSL_ACK_PENDING
      events := env.inserted_events
      calls := c.calls ++ [Call.SSL_new vh.ssl_ctx] ++
        [Call.SSL_set_ex_data env.SSL_new c.context, Call.SSL_set_fd env.SSL_new accept_fd,
          Call.SSL_set_mode env.SSL_new] ++
        (match env.rbio with
          | some b => [Call.BIO_set_nbio b]
          | none => []) ++
        (match env.wbio with
          | some b => [Call.BIO_set_nbio b]
          | none => []) ++
        [Call.insert_wsi_socket_into_fds] ++
        [Call.lws_set_timeout PendingTimeout.PENDING_TIMEOUT_SSL_ACCEPT env.timeout_secs] }
  else c

/-- Control reaches the case `LWSCM_SSL_ACK_PENDING` of `lws_server_socket_service_ssl`:
TLS is enabled on the host and the connection either is in that mode or is in
`LWSCM_SSL_INIT` with `SSL_new` and `insert_wsi_socket_into_fds` succeeding. -/
def ReachesAckPending (vh : Vhost) (env : AcceptEnv) (c : Conn) : Prop :=
  vh.use_ssl = true ∧
    (c.mode = ConnMode.LWSCM_SSL_ACK_PENDING ∨
      (c.mode = ConnMode.LWSCM_SSL_INIT ∧ env.SSL_new ≠ none ∧
        env.insert_wsi_socket_into_fds = 0))

instance (vh : Vhost) (env : AcceptEnv) (c : Conn) : Decidable (ReachesAckPending vh env c) :=
  inferInstanceAs (Decidable (_ ∧ _))

/-- The plaintext-fallback test of the case `LWSCM_SSL_ACK_PENDING` succeeds: fallback is
allowed on the host, the peek gave at least one byte and the first byte is `' '` or more. -/
def PlaintextPeek (vh : Vhost) (env : AcceptEnv) : Prop :=
  vh.allow_non_ssl_on_ssl_port = true ∧ 1 ≤ env.recv ∧ 32 ≤ env.serv_buf0

instance (vh : Vhost) (env : AcceptEnv) : Decidable (PlaintextPeek vh env) :=
  inferInstanceAs (Decidable (_ ∧ _))

/-- The engine's accept step is driven: the fallback test does not intercept the call
(fallback is off, or the peek is neither a plaintext first byte, nor empty, nor a
would-block error). -/
def AcceptStepDriven (k : Consts) (vh : Vhost) (env : AcceptEnv) : Prop :=
  vh.allow_non_ssl_on_ssl_port = false ∨
    (¬ (1 ≤ env.recv ∧ 32 ≤ env.serv_buf0) ∧ env.recv ≠ 0 ∧
      ¬ (env.recv < 0 ∧ (env.errno = k.LWS_EAGAIN ∨ env.errno = k.LWS_EWOULDBLOCK)))

instance (k : Consts) (vh : Vhost) (env : AcceptEnv) : Decidable (AcceptStepDriven k vh env) :=
  inferInstanceAs (Decidable (_ ∨ _))

/-- The accept step yields retry-read: either the fallback peek reports
`EAGAIN` / `EWOULDBLOCK`, or `SSL_accept` is driven, does not return 1 and
`SSL_get_error` is `SSL_ERROR_WANT_READ`. -/
def YieldsRetryRead (k : Consts) (vh : Vhost) (env : AcceptEnv) : Prop :=
  (vh.allow_non_ssl_on_ssl_port = true ∧ env.recv < 0 ∧
      (env.errno = k.LWS_EAGAIN ∨ env.errno = k.LWS_EWOULDBLOCK)) ∨
    (AcceptStepDriven k vh env ∧ env.SSL_accept ≠ 1 ∧
      env.SSL_get_error = k.SSL_ERROR_WANT_READ)

/-- The accept step yields retry-write: `SSL_accept` is driven, does not return 1 and
`SSL_get_error` is `SSL_ERROR_WANT_WRITE`. -/
def YieldsRetryWrite (k : Consts) (vh : Vhost) (env : AcceptEnv) : Prop :=
  AcceptStepDriven k vh env ∧ env.SSL_accept ≠ 1 ∧
    env.SSL_get_error = k.SSL_ERROR_WANT_WRITE

instance (k : Consts) (vh : Vhost) (env : AcceptEnv) : Decidable (YieldsRetryRead k vh env) :=
  inferInstanceAs (Decidable (_ ∨ _))

instance (k : Consts) (vh : Vhost) (env : AcceptEnv) : Decidable (YieldsRetryWrite k vh env) :=
  inferInstanceAs (Decidable (_ ∧ _))

/-! ## The client-side handshake: `lws_ssl_client_connect2` -/

/-- What the engine answers during one client handshake step: the result of `SSL_connect`,
of `SSL_get_error` on it, of `ERR_get_error` (an `unsigned long`) and of
`SSL_get_verify_result` (as the `int` it is assigned to). -/
structure ConnectEnv where
  SSL_connect : Int
  SSL_get_error : Int
  ERR_get_error : Nat
  SSL_get_verify_result : Int

/-- The conversion of an `unsigned long` to a 32-bit `int`, as in `n = ERR_get_error()`. -/
def int_of_ulong (e : Nat) : Int := ((e : Int) + 2 ^ 31) % 2 ^ 32 - 2 ^ 31

/-- The block `if (n <= 0) { n = ERR_get_error(); if (n != SSL_ERROR_NONE) return 0; }`
of the client handshake (ssl.c 648-659); `Sum.inl` is a `return`, `Sum.inr` falls out of
the block. -/
def client_connect_error_queue (k : Consts) (env : ConnectEnv) (n : Int) (c : Conn) :
    Sum (Int × Conn) Conn :=
  if n ≤ 0 then
    if int_of_ulong env.ERR_get_error ≠ k.SSL_ERROR_NONE then Sum.inl (0, c)
    else Sum.inr c
  else Sum.inr c

/-- The part of `lws_ssl_client_connect2` guarded by `wsi->mode == LWSCM_WSCL_WAITING_SSL`
(ssl.c 610-660). -/
def client_connect2_waiting (k : Consts) (env : ConnectEnv) (c : Conn) :
    Sum (Int × Conn) Conn :=
  if c.mode = ConnMode.LWSCM_WSCL_WAITING_SSL then
    let c1 : Conn := { c with calls := c.calls ++ [Call.SSL_connect c.ssl] }
    let n := env.SSL_connect
    if n < 0 then
      let e := env.SSL_get_error
      if e = k.SSL_ERROR_WANT_READ then
        Sum.inl (0, { c1 with mode := ConnMode.LWSCM_WSCL_WAITING_SSL })
      else if e = k.SSL_ERROR_WANT_WRITE then
        Sum.inl (0, { c1 with
          calls := c1.calls ++ [Call.lws_callback_on_writable]
          mode := ConnMode.LWSCM_WSCL_WAITING_SSL })
      else client_connect_error_queue k env (-1) c1
    else client_connect_error_queue k env n c1
  else Sum.inr c

/-- The peer-certificate check of `lws_ssl_client_connect2` (ssl.c 662-688). -/
def client_connect2_verify (k : Consts) (env : ConnectEnv) (c : Conn) : Int × Conn :=
  let n := env.SSL_get_verify_result
  if n ≠ k.X509_V_OK then
    if (n = k.X509_V_ERR_DEPTH_ZERO_SELF_SIGNED_CERT ∨
        n = k.X509_V_ERR_SELF_SIGNED_CERT_IN_CHAIN) ∧ c.use_ssl = 2 then
      -- accepting self-signed certificate
      (1, c)
    else
      (0, { c with calls := c.calls ++ [Call.lws_close_free_wsi k.LWS_CLOSE_STATUS_NOSTATUS] })
  else (1, c)

/-- `lws_ssl_client_connect2` (ssl.c 601-688). -/
def lws_ssl_client_connect2 (k : Consts) (env : ConnectEnv) (c : Conn) : Int × Conn :=
  match client_connect2_waiting k env c with
  | Sum.inl r => r
  | Sum.inr c1 => client_connect2_verify k env c1

/-- The call is a `lws_close_free_wsi`. -/
def Call.isClose : Call → Bool
  | Call.lws_close_free_wsi _ => true
  | _ => false

/-- The engine's verification result is acceptable to `lws_ssl_client_connect2`: a valid
chain, or a self-signed result on a connection configured to skip verification. -/
def VerifyAccepted (k : Consts) (env : ConnectEnv) (c : Conn) : Prop :=
  env.SSL_get_verify_result = k.X509_V_OK ∨
    ((env.SSL_get_verify_result = k.X509_V_ERR_DEPTH_ZERO_SELF_SIGNED_CERT ∨
        env.SSL_get_verify_result = k.X509_V_ERR_SELF_SIGNED_CERT_IN_CHAIN) ∧
      c.use_ssl = 2)

instance (k : Consts) (env : ConnectEnv) (c : Conn) : Decidable (VerifyAccepted k env c) :=
  inferInstanceAs (Decidable (_ ∨ _))

/-- The engine handshake has succeeded when `lws_ssl_client_connect2` is entered: it was
completed before (the mode is not `LWSCM_WSCL_WAITING_SSL`) or `SSL_connect` succeeds
in this call. -/
def HandshakeSucceeded (env : ConnectEnv) (c : Conn) : Prop :=
  c.mode ≠ ConnMode.LWSCM_WSCL_WAITING_SSL ∨ 0 < env.SSL_connect

instance (env : ConnectEnv) (c : Conn) : Decidable (HandshakeSucceeded env c) :=
  inferInstanceAs (Decidable (_ ∨ _))

/-! ## Client contexts and their destruction -/

/-- The fields of `struct lws_context_creation_info` that `lws_context_init_client_ssl`
reads; the two flags are `lws_check_opt(info->options, ...)` for
`LWS_SERVER_OPTION_DO_SSL_GLOBAL_INIT` and `LWS_SERVER_OPTION_DISABLE_OS_CA_CERTS`. -/
structure CreationInfo where
  do_ssl_global_init : Bool
  disable_os_ca_certs : Bool
  provided_client_ssl_ctx : Option Nat
  port : Int
  ssl_cipher_list : Option String
  ssl_ca_filepath : Option String
  ssl_cert_filepath : Option String
  ssl_private_key_filepath : Option String
  ssl_private_key_password : Option String

/-- Whether the preprocessor symbols `SSL_OP_NO_COMPRESSION` and
`LWS_SSL_CLIENT_USE_OS_CA_CERTS` are defined in the build. -/
structure BuildFlags where
  SSL_OP_NO_COMPRESSION : Bool
  LWS_SSL_CLIENT_USE_OS_CA_CERTS : Bool

/-- What the engine answers during `lws_context_init_client_ssl`. -/
structure InitClientEnv where
  SSLv23_client_method : Option Nat
  SSL_CTX_new : Option Nat
  SSL_CTX_use_certificate_chain_file : Int
  SSL_CTX_use_PrivateKey_file : Int
  SSL_CTX_check_private_key : Int

/-- `lws_ssl_bind_passphrase` (ssl.c 46-57): the calls it makes. -/
def lws_ssl_bind_passphrase (ctx : Option Nat) (info : CreationInfo) : List Call :=
  if info.ssl_private_key_password = none then []
  else [Call.SSL_CTX_set_default_passwd_cb_userdata ctx, Call.SSL_CTX_set_default_passwd_cb ctx]

/-- The end of `lws_context_init_client_ssl` (ssl.c 813-825): the callback that lets user
code load extra certificates, then `return 0`. -/
def init_client_ssl_finish (vh : Vhost) (calls : List Call) : Int × Vhost × List Call :=
  (0, vh, calls ++ [Call.protocol_callback
    CallbackReason.LWS_CALLBACK_OPENSSL_LOAD_EXTRA_CLIENT_VERIFY_CERTS])

/-- `lws_context_init_client_ssl` (ssl.c 691-826).  The result is the returned `int`, the
host afterwards and the calls made so far. -/
def lws_context_init_client_ssl (k : Consts) (b : BuildFlags) (env : InitClientEnv)
    (info : CreationInfo) (vh : Vhost) (calls : List Call) : Int × Vhost × List Call :=
  if ¬ info.do_ssl_global_init then (0, vh, calls)
  else if info.provided_client_ssl_ctx ≠ none then
    -- use the provided OpenSSL context if given one; nothing for lib to delete
    (0, { vh with ssl_client_ctx := info.provided_client_ssl_ctx,
                  user_supplied_ssl_ctx := true }, calls)
  else if info.port ≠ k.CONTEXT_PORT_NO_LISTEN then (0, vh, calls)
  else
    let calls1 := calls ++
      [Call.SSL_library_init, Call.OpenSSL_add_all_algorithms, Call.SSL_load_error_strings]
    if env.SSLv23_client_method = none then (1, vh, calls1)
    else
      -- create context
      let vh1 : Vhost := { vh with ssl_client_ctx := env.SSL_CTX_new }
      let calls2 := calls1 ++ [Call.SSL_CTX_new]
      if vh1.ssl_client_ctx = none then (1, vh1, calls2)
      else
        let ctx := vh1.ssl_client_ctx
        let calls3 := calls2 ++
          (if b.SSL_OP_NO_COMPRESSION then [Call.SSL_CTX_set_options ctx] else []) ++
          [Call.SSL_CTX_set_options ctx] ++
          (if info.ssl_cipher_list ≠ none then [Call.SSL_CTX_set_cipher_list ctx] else []) ++
          (if b.LWS_SSL_CLIENT_USE_OS_CA_CERTS ∧ ¬ info.disable_os_ca_certs then
            [Call.SSL_CTX_set_default_verify_paths ctx] else []) ++
          [Call.SSL_CTX_load_verify_locations ctx]
        -- support for client-side certificate authentication
        let calls4 := calls3 ++
          (if info.ssl_cert_filepath ≠ none then
            [Call.SSL_CTX_use_certificate_chain_file ctx] else [])
        if info.ssl_cert_filepath ≠ none ∧ env.SSL_CTX_use_certificate_chain_file ≠ 1 then
          (1, vh1, calls4)
        else if info.ssl_private_key_filepath ≠ none then
          let calls5 := calls4 ++ lws_ssl_bind_passphrase ctx info ++
            [Call.SSL_CTX_use_PrivateKey_file ctx]
          if env.SSL_CTX_use_PrivateKey_file ≠ 1 then (1, vh1, calls5)
          else
            -- verify private key
            let calls6 := calls5 ++ [Call.SSL_CTX_check_private_key ctx]
            if env.SSL_CTX_check_private_key = 0 then (1, vh1, calls6)
            else init_client_ssl_finish vh1 calls6
        else init_client_ssl_finish vh1 calls4

/-- The two conditional `SSL_CTX_free` calls shared by `lws_ssl_destroy` (ssl.c 445-448)
and `lws_ssl_SSL_CTX_destroy` (ssl.c 1142-1145). -/
def SSL_CTX_free_calls (vh : Vhost) : List Call :=
  (match vh.ssl_ctx with
    | some ctx => [Call.SSL_CTX_free ctx]
    | none => []) ++
  (match vh.ssl_client_ctx with
    | some ctx => if ¬ vh.user_supplied_ssl_ctx then [Call.SSL_CTX_free ctx] else []
    | none => [])

/-- `lws_ssl_destroy` (ssl.c 439-458): the calls made so far, extended. -/
def lws_ssl_destroy (vh : Vhost) (calls : List Call) : List Call :=
  if ¬ vh.context_do_ssl_global_init then calls
  else
    calls ++ SSL_CTX_free_calls vh ++
      [Call.ERR_remove_thread_state, Call.ERR_free_strings, Call.EVP_cleanup,
        Call.CRYPTO_cleanup_all_ex_data]

/-- `lws_ssl_SSL_CTX_destroy` (ssl.c 1139-1146): the calls made so far, extended. -/
def lws_ssl_SSL_CTX_destroy (vh : Vhost) (calls : List Call) : List Call :=
  calls ++ SSL_CTX_free_calls vh

/-! ## Server Name Indication -/

/-- What `lws_ssl_server_name_cb` asks of the TLS session it is given:
`SSL_get_SSL_CTX(ssl)` and `SSL_get_servername(ssl, TLSEXT_NAMETYPE_host_name)`. -/
structure SslSession where
  ctx : Option Nat
  servername : Option String

/-- `lws_ssl_server_name_cb` (ssl.c 210-253).  `vhost_list` is `context->vhost_list` in
list order, `select` stands for `lws_select_vhost`, which is defined outside `ssl.c`.  The
result is `none` when `assert(vh)` fails, and otherwise the returned `int` with the calls
made. -/
def lws_ssl_server_name_cb (k : Consts)
    (select : List Vhost → Int → String → Option Vhost) (vhost_list : List Vhost)
    (ssl : Option SslSession) : Option (Int × List Call) :=
  match ssl with
  | none => some (k.SSL_TLSEXT_ERR_NOACK, [])
  | some s =>
    -- find out which listening one took us
    match vhost_list.find? (fun vh => decide (vh.ssl_ctx = s.ctx)) with
    | none => none
    | some vh =>
      let port := vh.listen_port
      match s.servername with
      | some servername =>
        match select vhost_list port servername with
        | some vhost => some (k.SSL_TLSEXT_ERR_OK, [Call.SSL_set_SSL_CTX vhost.ssl_ctx])
        | none => some (k.SSL_TLSEXT_ERR_OK, [])
      | none => some (k.SSL_TLSEXT_ERR_OK, [])

/-- Modelled from the spec: `lws_select_vhost` is not in `ssl.c`; the registry is scanned
for a host whose listening port matches and that registers the requested name. -/
def select_vhost_by_port_and_name (vhost_list : List Vhost) (port : Int) (servername : String) :
    Option Vhost :=
  vhost_list.find? (fun vh => decide (vh.listen_port = port ∧ vh.name = servername))

/-- A client connection that has completed the engine handshake and verifies strictly. -/
def exampleClient : Conn where
  mode := ConnMode.LWSCM_WSCL_ISSUE_HANDSHAKE
  ssl := some 9
  use_ssl := 1
  redirect_to_https := false
  sock := 5
  context := 1000
  vhost := 2000
  events := 1
  calls := []

/-- An engine whose verification result is `X509_V_ERR_DEPTH_ZERO_SELF_SIGNED_CERT`. -/
def envSelfSigned : ConnectEnv where
  SSL_connect := 1
  SSL_get_error := 0
  ERR_get_error := 0
  SSL_get_verify_result := 18

/-- A creation info with global TLS init enabled that supplies client context 77. -/
def exampleInfo : CreationInfo where
  do_ssl_global_init := true
  disable_os_ca_certs := false
  provided_client_ssl_ctx := some 77
  port := 443
  ssl_cipher_list := none
  ssl_ca_filepath := none
  ssl_cert_filepath := none
  ssl_private_key_filepath := none
  ssl_private_key_password := none

/-- An engine in which every step of the client context construction succeeds. -/
def envInitClient : InitClientEnv where
  SSLv23_client_method := some 1
  SSL_CTX_new := some 50
  SSL_CTX_use_certificate_chain_file := 1
  SSL_CTX_use_PrivateKey_file := 1
  SSL_CTX_check_private_key := 1

/-- A registry of three hosts: `a` on port 443 (context 1), `b` on port 8443 (context 2)
and another `b` on port 443 (context 3). -/
def exampleRegistry : List Vhost :=
  [ { name := "a", listen_port := 443, use_ssl := true, allow_non_ssl_on_ssl_port := false,
      ssl_ctx := some 1, ssl_client_ctx := none, user_supplied_ssl_ctx := false,
      context_do_ssl_global_init := true },
    { name := "b", listen_port := 8443, use_ssl := true, allow_non_ssl_on_ssl_port := false,
      ssl_ctx := some 2, ssl_client_ctx := none, user_supplied_ssl_ctx := false,
      context_do_ssl_global_init := true },
    { name := "b", listen_port := 443, use_ssl := true, allow_non_ssl_on_ssl_port := false,
      ssl_ctx := some 3, ssl_client_ctx := none, user_supplied_ssl_ctx := false,
      context_do_ssl_global_init := true } ]

/-- A session accepted with context 1 (host `a`, port 443) that asks for the name `b`. -/
def exampleSession : SslSession where
  ctx := some 1
  servername := some "b"

/-- A host that terminates TLS on port 443 and allows plaintext on that port. -/
def exampleVhost : Vhost where
  name := ""
  listen_port := 443
  use_ssl := true
  allow_non_ssl_on_ssl_port := true
  ssl_ctx := some 100
  ssl_client_ctx := none
  user_supplied_ssl_ctx := false
  context_do_ssl_global_init := true

/-- A connection in `LWSCM_SSL_ACK_PENDING` with TLS session 9, registered for `POLLIN`. -/
def exampleConn : Conn where
  mode := ConnMode.LWSCM_SSL_ACK_PENDING
  ssl := some 9
  use_ssl := 1
  redirect_to_https := false
  sock := 5
  context := 1000
  vhost := 2000
  events := 1
  calls := []

/-- An environment in which the peek fails with an error other than would-block and
`SSL_accept` returns -1 with `SSL_ERROR_WANT_WRITE`. -/
def envWantWrite : AcceptEnv where
  SSL_new := some 9
  rbio := some 30
  wbio := some 31
  insert_wsi_socket_into_fds := 0
  inserted_events := 1
  change_pollfd_clear := 0
  change_pollfd_rearm := 0
  recv := -1
  serv_buf0 := 0
  errno := 0
  SSL_accept := -1
  SSL_get_error := 3
  timeout_secs := 20
  redirect_http_to_https := false

/-- The same with `SSL_ERROR_WANT_READ`. -/
def envWantRead : AcceptEnv := { envWantWrite with SSL_get_error := 2 }

/-- An environment in which the peek shows 16 bytes starting with the letter G. -/
def envPlaintext : AcceptEnv := { envWantWrite with recv := 16, serv_buf0 := 71 }

/-! ## `lws_ssl_capable_write` -/

/-- What the TLS engine answers during one `lws_ssl_capable_write`: the result of
`SSL_write` and the code `SSL_get_error` gives for it. -/
structure WriteEngine where
  SSL_write : Int
  SSL_get_error : Int

/-- `lws_ssl_capable_write` (ssl.c 924-944).  `no_ssl` stands for
`lws_ssl_capable_write_no_ssl`, which is defined outside `ssl.c`; `lws_set_blocking_send`
is a macro of `private-libwebsockets.h`, recorded as a call. -/
def lws_ssl_capable_write (k : Consts) (no_ssl : Conn → Int → Int × Conn)
    (eng : WriteEngine) (c : Conn) (len : Int) : Int × Conn :=
  if c.ssl = none then no_ssl c len
  else
    let n := eng.SSL_write
    if n > 0 then (n, c)
    else
      let e := eng.SSL_get_error
      if e = k.SSL_ERROR_WANT_READ ∨ e = k.SSL_ERROR_WANT_WRITE then
        let c1 : Conn :=
          if e = k.SSL_ERROR_WANT_WRITE then
            { c with calls := c.calls ++ [Call.lws_set_blocking_send] }
          else c
        (k.LWS_SSL_CAPABLE_MORE_SERVICE, c1)
      else (k.LWS_SSL_CAPABLE_ERROR, c)

/-! ## The client-side handshake: `lws_ssl_client_connect1` -/

/-- `lws_ssl_client_connect1` (ssl.c 542-599).  The label `some_wait` sits inside the
`SSL_ERROR_WANT_WRITE` block, after `lws_callback_on_writable`. -/
def lws_ssl_client_connect1 (k : Consts) (env : ConnectEnv) (c : Conn) : Int × Conn :=
  let c1 : Conn := { c with calls := c.calls ++ [Call.SSL_connect c.ssl] }
  let n := env.SSL_connect
  if n < 0 then
    let e := env.SSL_get_error
    if e = k.SSL_ERROR_WANT_READ then
      -- goto some_wait
      (0, { c1 with mode := ConnMode.LWSCM_WSCL_WAITING_SSL })
    else if e = k.SSL_ERROR_WANT_WRITE then
      (0, { c1 with
        calls := c1.calls ++ [Call.lws_callback_on_writable]
        mode := ConnMode.LWSCM_WSCL_WAITING_SSL })
    else
      match client_connect_error_queue k env (-1) c1 with
      | Sum.inl r => r
      | Sum.inr c2 => (1, c2)
  else
    match client_connect_error_queue k env n c1 with
    | Sum.inl r => r
    | Sum.inr c2 => (1, c2)

/-- The engine's connect step did not succeed and asks for neither retry: `SSL_connect`
returned 0, or it returned a negative value and `SSL_get_error` is neither
`SSL_ERROR_WANT_READ` nor `SSL_ERROR_WANT_WRITE`. -/
def ConnectFailed (k : Consts) (env : ConnectEnv) : Prop :=
  env.SSL_connect ≤ 0 ∧
    (env.SSL_connect < 0 →
      env.SSL_get_error ≠ k.SSL_ERROR_WANT_READ ∧ env.SSL_get_error ≠ k.SSL_ERROR_WANT_WRITE)

instance (k : Consts) (env : ConnectEnv) : Decidable (ConnectFailed k env) :=
  inferInstanceAs (Decidable (_ ∧ _))

/-! ## The private-data slot of a TLS session -/

/-- What the engine answers during `lws_ssl_client_bio_create`. -/
structure BioCreateEnv where
  SSL_new : Option Nat
  BIO_new_socket : Option Nat

/-- `lws_ssl_client_bio_create` (ssl.c 474-540).  `have_sni` says whether
`SSL_CTRL_SET_TLSEXT_HOSTNAME` is defined in the build; `vh` is `wsi->vhost`.  The result
is the returned `int`, the connection afterwards and `wsi->client_bio`. -/
def lws_ssl_client_bio_create (have_sni : Bool) (env : BioCreateEnv) (vh : Vhost) (c : Conn) :
    Int × Conn × Option Nat :=
  let c1 : Conn :=
    { c with ssl := env.SSL_new, calls := c.calls ++ [Call.SSL_new vh.ssl_client_ctx] }
  let c2 : Conn := { c1 with calls := c1.calls ++ [Call.SSL_set_mode c1.ssl] }
  -- use server name indication (SNI), if supported
  let c3 : Conn :=
    if have_sni then { c2 with calls := c2.calls ++ [Call.SSL_set_tlsext_host_name c2.ssl] }
    else c2
  let client_bio := env.BIO_new_socket
  let c4 : Conn :=
    { c3 with calls := c3.calls ++
        [Call.BIO_new_socket c3.sock, Call.SSL_set_bio c3.ssl client_bio,
          Call.BIO_set_nbio_client_bio client_bio] }
  let c5 : Conn := { c4 with calls := c4.calls ++ [Call.SSL_set_ex_data c4.ssl c4.context] }
  (0, c5, client_bio)

/-- What `SSL_get_ex_data(ssl, openssl_websocket_private_data_index)` returns after the
calls `calls`: the value of the last `SSL_set_ex_data` on that session (`ssl.c` uses no
other index on a session), `none` when there is none. -/
def SSL_get_ex_data (ssl : Option Nat) : List Call → Option Nat
  | [] => none
  | Call.SSL_set_ex_data s d :: rest =>
    match SSL_get_ex_data ssl rest with
    | some later => some later
    | none => if s = ssl then some d else none
  | _ :: rest => SSL_get_ex_data ssl rest

/-- `OpenSSL_verify_callback` (ssl.c 94-125).  `slot` is what
`SSL_get_ex_data(ssl, openssl_websocket_private_data_index)` returns, `callback vh` is the
result of `vh->protocols[0].callback(...)` for the object at address `vh`.  The result is
the returned `int` and the address the function uses as the virtual host. -/
def OpenSSL_verify_callback (slot : Nat) (callback : Nat → Int) : Int × Nat :=
  let vh := slot
  let n := callback vh
  -- convert return code from 0 = OK to 1 = OK
  (if n = 0 then 1 else 0, vh)

/-! ## Removal from the pending-read list, as an operation on sequences -/

/-- The sequence `l` with the connection `w` erased and all other members in their
original order: the effect `lws_ssl_remove_wsi_from_buffered_list` is to have on the
member sequence. -/
def erase_member (l : List Nat) (w : Nat) : List Nat := l.filter (fun x => decide (x ≠ w))

/-- An engine whose connect step fails (result 0) and leaves the error queue empty. -/
def envConnectFailedQuiet : ConnectEnv where
  SSL_connect := 0
  SSL_get_error := 5
  ERR_get_error := 0
  SSL_get_verify_result := 0

/-- An engine whose connect step fails (result 0) with an entry in the error queue. -/
def envConnectFailedLoud : ConnectEnv where
  SSL_connect := 0
  SSL_get_error := 5
  ERR_get_error := 336031996
  SSL_get_verify_result := 0

/-- An engine whose connect step asks for a read. -/
def envConnectWantRead : ConnectEnv where
  SSL_connect := -1
  SSL_get_error := 2
  ERR_get_error := 0
  SSL_get_verify_result := 0

/-- A connection in `LWSCM_SSL_INIT`, owned by the context at address 1000 and the
virtual host at address 2000. -/
def exampleInitConn : Conn := { exampleConn with mode := ConnMode.LWSCM_SSL_INIT, ssl := none }

/-- An environment in which `SSL_accept` returns 1. -/
def envAccepted : AcceptEnv := { envWantWrite with SSL_accept := 1 }

/-- An environment in which `SSL_accept` fails with `SSL_ERROR_SSL`. -/
def envAcceptFatal : AcceptEnv := { envWantWrite with SSL_get_error := 1 }

/-- A client connection waiting for the engine handshake to complete. -/
def exampleWaitingClient : Conn :=
  { exampleClient with mode := ConnMode.LWSCM_WSCL_WAITING_SSL }

/-- A connection in `LWSCM_SSL_ACK_PENDING` that is registered for `POLLOUT` only. -/
def exampleConnPollout : Conn := { exampleConn with events := 4 }

/-- The environment of `envWantRead` in which the re-arming `lws_change_pollfd` fails. -/
def envWantReadRearmFails : AcceptEnv := { envWantRead with change_pollfd_rearm := 1 }

/-- The three conditions on the pending-read list with member sequence `l`, as they are
usually listed: no connection occurs twice in `l` (which starts at the head pointer and
follows the `next` fields), the head has no predecessor, and the `prev` / `next` links are
mutually consistent.  Nothing is said about connections that are not members. -/
def ListedWellFormed (st : PendingState) (l : List Nat) : Prop :=
  l.Nodup ∧ st.pending_read_list = l.head? ∧
    (∀ x, x ∈ l → st.pending_read_list_next x = nextIn l x) ∧
    (∀ a, st.pending_read_list = some a → st.pending_read_list_prev a = none) ∧
    (∀ a b, st.pending_read_list_next a = some b ↔ st.pending_read_list_prev b = some a)

/-- Every connection that is not a member of `l` has both link fields `NULL`. -/
def UnlinkedOutside (st : PendingState) (l : List Nat) : Prop :=
  ∀ x, x ∉ l → st.pending_read_list_prev x = none ∧ st.pending_read_list_next x = none

/-- A memory whose list is the single connection 3, while the connections 7 and 9, which
are not on the list, still point at each other. -/
def staleLinks : PendingState where
  pending_read_list := some 3
  pending_read_list_prev := fun x => if x = 9 then some 7 else none
  pending_read_list_next := fun x => if x = 7 then some 9 else none

/-! ## Lemmas on sequences and their links -/

theorem nextIn_of_not_mem {l : List Nat} {x : Nat} (h : x ∉ l) : nextIn l x = none := by
  induction l with
  | nil => rfl
  | cons a t ih =>
    simp only [List.mem_cons, not_or] at h
    simp [nextIn, Ne.symm h.1, ih h.2]

theorem mem_of_nextIn_eq_some {l : List Nat} {x y : Nat} (h : nextIn l x = some y) :
    y ∈ l ∧ x ∈ l := by
  induction l with
  | nil => simp [nextIn] at h
  | cons a t ih =>
    by_cases hax : a = x
    · subst hax
      simp only [nextIn, if_true] at h
      exact ⟨List.mem_cons_of_mem _ (List.mem_of_mem_head? h), List.mem_cons_self _ _⟩
    · simp only [nextIn, if_neg hax] at h
      exact ⟨List.mem_cons_of_mem _ (ih h).1, List.mem_cons_of_mem _ (ih h).2⟩

theorem nextIn_erase {l : List Nat} (hl : l.Nodup) (w x : Nat) :
    nextIn (l.erase w) x =
      if x = w then none else if nextIn l x = some w then nextIn l w else nextIn l x := by
  induction l with
  | nil => simp [nextIn]
  | cons a t ih =>
    obtain ⟨hat, ht⟩ := List.nodup_cons.1 hl
    by_cases haw : a = w
    · subst haw
      simp only [List.erase_cons_head]
      by_cases hxa : x = a
      · subst hxa; simp [nextIn_of_not_mem hat]
      · have hne : nextIn t x ≠ some a := fun h => hat (mem_of_nextIn_eq_some h).1
        simp [hxa, hne, nextIn, Ne.symm hxa]
    · rw [List.erase_cons_tail (by simpa using haw)]
      by_cases hax : a = x
      · subst hax
        have hne : a ≠ w := haw
        simp only [nextIn, if_true, if_neg hne]
        cases t with
        | nil => simp [nextIn]
        | cons b t2 =>
          by_cases hbw : b = w
          · subst hbw; simp [nextIn]
          · rw [List.erase_cons_tail (by simpa using hbw)]
            simp [hbw]
      · simp only [nextIn, if_neg hax, if_neg haw]
        exact ih ht

theorem nextIn_split {l : List Nat} {a b : Nat} (h : nextIn l a = some b) :
    ∃ l1 l2, l = l1 ++ a :: b :: l2 := by
  induction l with
  | nil => simp [nextIn] at h
  | cons c t ih =>
    by_cases hca : c = a
    · subst hca
      simp only [nextIn, if_true] at h
      cases t with
      | nil => simp at h
      | cons d t2 =>
        simp only [List.head?_cons, Option.some.injEq] at h
        subst h
        exact ⟨[], t2, rfl⟩
    · simp only [nextIn, if_neg hca] at h
      obtain ⟨l1, l2, e⟩ := ih h
      exact ⟨c :: l1, l2, by simp [e]⟩

theorem nextIn_of_split {l1 l2 : List Nat} {a b : Nat} (hl : (l1 ++ a :: b :: l2).Nodup) :
    nextIn (l1 ++ a :: b :: l2) a = some b := by
  induction l1 with
  | nil => simp [nextIn]
  | cons c t ih =>
    rw [List.cons_append] at hl
    obtain ⟨hc, ht⟩ := List.nodup_cons.1 hl
    have hca : c ≠ a := by
      intro e; subst e; exact hc (by simp)
    simp only [List.cons_append, nextIn, if_neg hca]
    exact ih ht

theorem nextIn_reverse_of {l : List Nat} (hl : l.Nodup) {a b : Nat}
    (h : nextIn l a = some b) : nextIn l.reverse b = some a := by
  obtain ⟨l1, l2, e⟩ := nextIn_split h
  subst e
  have hr : (l1 ++ a :: b :: l2).reverse = l2.reverse ++ b :: a :: l1.reverse := by simp
  rw [hr]
  apply nextIn_of_split
  rw [← hr]
  exact List.nodup_reverse.2 hl

/-- The links induced by a duplicate-free sequence are mutually consistent: `b` is the
successor of `a` exactly when `a` is the predecessor of `b`. -/
theorem nextIn_eq_some_iff_prevIn {l : List Nat} (hl : l.Nodup) (a b : Nat) :
    nextIn l a = some b ↔ prevIn l b = some a := by
  constructor
  · exact nextIn_reverse_of hl
  · intro h
    have := nextIn_reverse_of (List.nodup_reverse.2 hl) h
    simpa using this

theorem reverse_erase {l : List Nat} (hl : l.Nodup) (w : Nat) :
    (l.erase w).reverse = l.reverse.erase w := by
  rw [hl.erase_eq_filter, (List.nodup_reverse.2 hl).erase_eq_filter, List.filter_reverse]

theorem prevIn_erase {l : List Nat} (hl : l.Nodup) (w x : Nat) :
    prevIn (l.erase w) x =
      if x = w then none else if prevIn l x = some w then prevIn l w else prevIn l x := by
  unfold prevIn
  rw [reverse_erase hl]
  exact nextIn_erase (List.nodup_reverse.2 hl) w x

theorem nextIn_eq_none_iff {l : List Nat} (hl : l.Nodup) {w : Nat} (hw : w ∈ l) :
    nextIn l w = none ↔ l.getLast? = some w := by
  induction l with
  | nil => simp at hw
  | cons a t ih =>
    obtain ⟨hat, ht⟩ := List.nodup_cons.1 hl
    by_cases haw : a = w
    · subst haw
      cases t with
      | nil => simp [nextIn]
      | cons b t2 =>
        simp only [nextIn, if_true, List.head?_cons, List.getLast?_cons_cons]
        constructor
        · intro h; simp at h
        · intro h
          exact absurd (List.mem_of_mem_getLast? h) hat
    · have hwt : w ∈ t := by
        rcases List.mem_cons.1 hw with h | h
        · exact absurd h.symm haw
        · exact h
      simp only [nextIn, if_neg haw]
      rw [ih ht hwt]
      cases t with
      | nil => simp at hwt
      | cons b t2 => rw [List.getLast?_cons_cons]

theorem prevIn_eq_none_iff {l : List Nat} (hl : l.Nodup) {w : Nat} (hw : w ∈ l) :
    prevIn l w = none ↔ l.head? = some w := by
  unfold prevIn
  rw [nextIn_eq_none_iff (List.nodup_reverse.2 hl) (List.mem_reverse.2 hw),
    List.getLast?_reverse]

theorem prevIn_of_not_mem {l : List Nat} {x : Nat} (h : x ∉ l) : prevIn l x = none :=
  nextIn_of_not_mem (by simpa using h)

theorem nextIn_cons (a : Nat) (t : List Nat) (x : Nat) :
    nextIn (a :: t) x = if a = x then t.head? else nextIn t x := rfl

theorem nextIn_append_singleton {m : List Nat} (hm : m.Nodup) {w : Nat} (hw : w ∉ m)
    (x : Nat) :
    nextIn (m ++ [w]) x =
      if x = w then none else if m.getLast? = some x then some w else nextIn m x := by
  induction m with
  | nil =>
    by_cases hxw : x = w
    · subst hxw; simp [nextIn]
    · simp [nextIn, hxw, Ne.symm hxw]
  | cons a t ih =>
    simp only [List.mem_cons, not_or] at hw
    obtain ⟨hat, ht⟩ := List.nodup_cons.1 hm
    have hwa : w ≠ a := hw.1
    rw [List.cons_append, nextIn_cons, nextIn_cons]
    by_cases hax : a = x
    · subst hax
      rw [if_pos rfl, if_pos rfl, if_neg (Ne.symm hwa)]
      cases t with
      | nil => simp
      | cons b t2 =>
        have hne : (b :: t2).getLast? ≠ some a := fun h => hat (List.mem_of_mem_getLast? h)
        rw [List.getLast?_cons_cons, if_neg hne]
        rfl
    · rw [if_neg hax, if_neg hax, ih ht hw.2]
      cases t with
      | nil => simp [hax]
      | cons b t2 => rw [List.getLast?_cons_cons]

theorem prevIn_cons {l : List Nat} (hl : l.Nodup) {w : Nat} (hw : w ∉ l) (x : Nat) :
    prevIn (w :: l) x =
      if x = w then none else if l.head? = some x then some w else prevIn l x := by
  unfold prevIn
  rw [List.reverse_cons, nextIn_append_singleton (List.nodup_reverse.2 hl) (by simpa using hw),
    List.getLast?_reverse]

/-- Under `Represents`, the test by which `ssl.c` decides that a connection is not on the
list (both links `NULL` and the head is another connection) is exact. -/
theorem Represents.unlinked_iff {st : PendingState} {l : List Nat} (h : Represents st l)
    (w : Nat) :
    (st.pending_read_list_prev w = none ∧ st.pending_read_list_next w = none ∧
      st.pending_read_list ≠ some w) ↔ w ∉ l := by
  rw [h.prev, h.next, h.head]
  constructor
  · rintro ⟨hp, _, hh⟩ hw
    exact hh ((prevIn_eq_none_iff h.nodup hw).1 hp)
  · intro hw
    refine ⟨prevIn_of_not_mem hw, nextIn_of_not_mem hw, ?_⟩
    intro hh
    exact hw (List.mem_of_mem_head? hh)

theorem remove_of_not_mem {st : PendingState} {l : List Nat} (h : Represents st l)
    {w : Nat} (hw : w ∉ l) : lws_ssl_remove_wsi_from_buffered_list st w = st := by
  unfold lws_ssl_remove_wsi_from_buffered_list
  rw [if_pos ((h.unlinked_iff w).2 hw)]

theorem remove_head (st : PendingState) (w : Nat)
    (ht : ¬ (st.pending_read_list_prev w = none ∧ st.pending_read_list_next w = none ∧
      st.pending_read_list ≠ some w)) :
    (lws_ssl_remove_wsi_from_buffered_list st w).pending_read_list =
      match st.pending_read_list_prev w with
      | none => st.pending_read_list_next w
      | some _ => st.pending_read_list := by
  unfold lws_ssl_remove_wsi_from_buffered_list
  rw [if_neg ht]
  cases hP : st.pending_read_list_prev w <;> cases hN : st.pending_read_list_next w <;>
    simp [hN, Function.update_apply]

theorem remove_next (st : PendingState) (w x : Nat)
    (ht : ¬ (st.pending_read_list_prev w = none ∧ st.pending_read_list_next w = none ∧
      st.pending_read_list ≠ some w)) :
    (lws_ssl_remove_wsi_from_buffered_list st w).pending_read_list_next x =
      if x = w then none else
        match st.pending_read_list_prev w with
        | none => st.pending_read_list_next x
        | some p => if x = p then st.pending_read_list_next w
                    else st.pending_read_list_next x := by
  unfold lws_ssl_remove_wsi_from_buffered_list
  rw [if_neg ht]
  by_cases hxw : x = w
  · subst hxw
    cases hP : st.pending_read_list_prev x <;> cases hN : st.pending_read_list_next x <;>
      simp [hN, Function.update_apply]
  · cases hP : st.pending_read_list_prev w <;> cases hN : st.pending_read_list_next w <;>
      simp [hN, hP, hxw, Function.update_apply]

theorem remove_prev (st : PendingState) (w x : Nat)
    (ht : ¬ (st.pending_read_list_prev w = none ∧ st.pending_read_list_next w = none ∧
      st.pending_read_list ≠ some w)) :
    (lws_ssl_remove_wsi_from_buffered_list st w).pending_read_list_prev x =
      if x = w then none else
        match st.pending_read_list_next w with
        | none => st.pending_read_list_prev x
        | some nx => if x = nx then st.pending_read_list_prev w
                     else st.pending_read_list_prev x := by
  unfold lws_ssl_remove_wsi_from_buffered_list
  rw [if_neg ht]
  by_cases hxw : x = w
  · subst hxw
    cases hP : st.pending_read_list_prev x <;> cases hN : st.pending_read_list_next x <;>
      simp [hN, Function.update_apply]
  · cases hP : st.pending_read_list_prev w <;> cases hN : st.pending_read_list_next w <;>
      simp [hN, hP, hxw, Function.update_apply]

/-- Removal is exact on a well-formed list: the memory afterwards holds the member
sequence with the connection erased. -/
theorem Represents.remove {st : PendingState} {l : List Nat} (h : Represents st l)
    (w : Nat) : Represents (lws_ssl_remove_wsi_from_buffered_list st w) (l.erase w) := by
  by_cases hw : w ∈ l
  swap
  · rw [remove_of_not_mem h hw, List.erase_of_not_mem hw]; exact h
  have htest : ¬ (st.pending_read_list_prev w = none ∧ st.pending_read_list_next w = none ∧
      st.pending_read_list ≠ some w) := fun ht => (h.unlinked_iff w).1 ht hw
  have hcons := nextIn_eq_some_iff_prevIn h.nodup
  refine ⟨h.nodup.erase w, ?_, ?_, ?_⟩
  · -- the head pointer
    rw [remove_head st w htest, h.prev, h.next, h.head]
    cases hP : prevIn l w with
    | none =>
      have hhead : l.head? = some w := (prevIn_eq_none_iff h.nodup hw).1 hP
      cases l with
      | nil => simp at hw
      | cons a t =>
        simp only [List.head?_cons, Option.some.injEq] at hhead
        subst hhead
        simp [nextIn]
    | some p =>
      have hne : l.head? ≠ some w := by
        intro hh
        rw [(prevIn_eq_none_iff h.nodup hw).2 hh] at hP
        exact Option.noConfusion hP
      cases l with
      | nil => simp at hw
      | cons a t =>
        have haw : a ≠ w := by simpa using hne
        rw [List.erase_cons_tail (by simpa using haw)]
        rfl
  · -- the next fields
    intro x
    rw [remove_next st w x htest, nextIn_erase h.nodup, h.prev, h.next, h.next]
    by_cases hxw : x = w
    · simp [hxw]
    · rw [if_neg hxw, if_neg hxw]
      cases hP : prevIn l w with
      | none =>
        have : nextIn l x ≠ some w := by
          intro hx
          rw [(hcons x w).1 hx] at hP
          exact Option.noConfusion hP
        simp [this]
      | some p =>
        by_cases hxp : x = p
        · subst hxp
          simp [(hcons x w).2 hP]
        · have : nextIn l x ≠ some w := by
            intro hx
            rw [(hcons x w).1 hx] at hP
            exact hxp (Option.some.inj hP)
          simp [hxp, this]
  · -- the prev fields
    intro x
    rw [remove_prev st w x htest, prevIn_erase h.nodup, h.prev, h.next, h.prev]
    by_cases hxw : x = w
    · simp [hxw]
    · rw [if_neg hxw, if_neg hxw]
      cases hN : nextIn l w with
      | none =>
        have : prevIn l x ≠ some w := by
          intro hx
          rw [(hcons w x).2 hx] at hN
          exact Option.noConfusion hN
        simp [this]
      | some nx =>
        by_cases hxn : x = nx
        · subst hxn
          simp [(hcons w x).1 hN]
        · have : prevIn l x ≠ some w := by
            intro hx
            rw [(hcons w x).2 hx] at hN
            exact hxn (Option.some.inj hN)
          simp [hxn, this]

theorem represents_emptyPending : Represents emptyPending [] :=
  ⟨List.nodup_nil, rfl, fun _ => rfl, fun _ => rfl⟩

theorem represents_pendingOf {l : List Nat} (hl : l.Nodup) : Represents (pendingOf l) l :=
  ⟨hl, rfl, fun _ => rfl, fun _ => rfl⟩

/-- A represented list is determined by its memory : following `next` from the head
reads off exactly the member sequence. -/
theorem walk_nextIn (l1 : List Nat) (a : Nat) (l2 : List Nat) (st : PendingState)
    (hn : ∀ x, st.pending_read_list_next x = nextIn (l1 ++ a :: l2) x)
    (hl : (l1 ++ a :: l2).Nodup) (fuel : Nat) (hf : (a :: l2).length ≤ fuel) :
    walk st fuel (some a) = a :: l2 := by
  induction l2 generalizing l1 a fuel with
  | nil =>
    cases fuel with
    | zero => simp at hf
    | succ f =>
      have hlast : nextIn (l1 ++ [a]) a = none := by
        rw [nextIn_eq_none_iff hl (by simp)]; simp
      simp only [walk, hn, hlast]
      cases f <;> rfl
  | cons b t ih =>
    cases fuel with
    | zero => simp at hf
    | succ f =>
      have hnx : nextIn (l1 ++ a :: b :: t) a = some b := nextIn_of_split hl
      simp only [walk, hn, hnx]
      have e : l1 ++ a :: b :: t = (l1 ++ [a]) ++ b :: t := by simp
      rw [ih (l1 ++ [a]) b (by rw [← e]; exact hn) (by rw [← e]; exact hl) f
        (by simpa using hf)]

theorem Represents.walk_eq {st : PendingState} {l : List Nat} (h : Represents st l)
    (fuel : Nat) (hf : l.length ≤ fuel) : walk st fuel st.pending_read_list = l := by
  cases l with
  | nil =>
    rw [h.head]
    cases fuel <;> rfl
  | cons a t =>
    rw [h.head]
    exact walk_nextIn [] a t st h.next h.nodup fuel hf

/-- The member sequence is a function of the memory. -/
theorem Represents.unique {st : PendingState} {l1 l2 : List Nat} (h1 : Represents st l1)
    (h2 : Represents st l2) : l1 = l2 := by
  have e1 := h1.walk_eq (max l1.length l2.length) (le_max_left _ _)
  have e2 := h2.walk_eq (max l1.length l2.length) (le_max_right _ _)
  exact e1.symm.trans e2

/-! ## Buffered plaintext and the result of `lws_ssl_capable_read` -/

/-- Linking an absent connection at the head, the way `lws_ssl_capable_read` does it,
gives the well-formed list with that connection in front. -/
theorem capable_read_links_head (k : Consts)
    (no_ssl : PendingState → Nat → Int → Int × PendingState) (eng : ReadEngine) (h : Nat)
    (st : PendingState) (w : Nat) (len : Int) (l : List Nat) (hrep : Represents st l)
    (hw : w ∉ l) (hn : eng.SSL_read = len) (hpos : 0 < eng.SSL_read)
    (hpend : eng.SSL_pending ≠ 0) :
    (lws_ssl_capable_read k no_ssl eng (some h) st w len).1 = eng.SSL_read ∧
      Represents (lws_ssl_capable_read k no_ssl eng (some h) st w len).2 (w :: l) := by
  obtain ⟨hp, hnx, hh⟩ := (hrep.unlinked_iff w).2 hw
  have h0 : eng.SSL_read ≠ 0 := ne_of_gt hpos
  have h1 : ¬ eng.SSL_read < 0 := not_lt.2 hpos.le
  unfold lws_ssl_capable_read
  simp only [reduceCtorEq, if_false, h0, h1, hn.symm, ne_eq, not_true_eq_false, hpend, hnx,
    hp, hh]
  refine ⟨trivial, List.nodup_cons.2 ⟨hw, hrep.nodup⟩, rfl, ?_, ?_⟩
  · intro x
    rw [nextIn_cons]
    by_cases hwx : w = x
    · subst hwx
      cases hd : st.pending_read_list <;> simp [← hrep.head, hd]
    · cases hd : st.pending_read_list <;>
        simp [hwx, Ne.symm hwx, Function.update_apply, hrep.next]
  · intro x
    rw [prevIn_cons hrep.nodup hw, ← hrep.head]
    by_cases hxw : x = w
    · subst hxw
      cases hd : st.pending_read_list <;> simp
    · cases hd : st.pending_read_list with
      | none => simp [hxw, Function.update_apply, hrep.prev]
      | some a =>
        by_cases hxa : x = a
        · simp [hxw, hxa, Function.update_apply]
        · have : a ≠ x := Ne.symm hxa
          simp [hxw, hxa, this, Function.update_apply, hrep.prev]

/-- A connection that is already linked is left where it is. -/
theorem capable_read_keeps_linked (k : Consts)
    (no_ssl : PendingState → Nat → Int → Int × PendingState) (eng : ReadEngine) (h : Nat)
    (st : PendingState) (w : Nat) (len : Int) (l : List Nat) (hrep : Represents st l)
    (hw : w ∈ l) (hn : eng.SSL_read = len) (hpos : 0 < eng.SSL_read)
    (hpend : eng.SSL_pending ≠ 0) :
    lws_ssl_capable_read k no_ssl eng (some h) st w len = (eng.SSL_read, st) := by
  have hlinked : ¬ (st.pending_read_list_prev w = none ∧ st.pending_read_list_next w = none ∧
      st.pending_read_list ≠ some w) := fun ht => (hrep.unlinked_iff w).1 ht hw
  have h0 : eng.SSL_read ≠ 0 := ne_of_gt hpos
  have h1 : ¬ eng.SSL_read < 0 := not_lt.2 hpos.le
  unfold lws_ssl_capable_read
  simp only [reduceCtorEq, if_false, h0, h1, hn.symm, ne_eq, not_true_eq_false, hpend]
  by_cases c1 : st.pending_read_list_next w = none
  · by_cases c2 : st.pending_read_list_prev w = none
    · have c3 : st.pending_read_list = some w := by
        by_contra c3
        exact hlinked ⟨c2, c1, c3⟩
      simp [c1, c2, c3]
    · simp [c1, c2]
  · simp [c1]

/-- C1 (as amended): for a connection with a live TLS session and a well-formed
pending-read list with member sequence `l`, if `SSL_read` returns `n = len` with `n > 0`
and `SSL_pending` is nonzero, then `lws_ssl_capable_read` returns `n` and afterwards the list
is well formed with the connection on it exactly once: at the head, in front of the old
members, if it was absent, and with the memory untouched if it was already linked. -/
theorem capable_read_full_buffer_links (k : Consts)
    (no_ssl : PendingState → Nat → Int → Int × PendingState) (eng : ReadEngine) (h : Nat)
    (st : PendingState) (w : Nat) (len : Int) (l : List Nat) (hrep : Represents st l)
    (hn : eng.SSL_read = len) (hpos : 0 < eng.SSL_read) (hpend : eng.SSL_pending ≠ 0) :
    (lws_ssl_capable_read k no_ssl eng (some h) st w len).1 = eng.SSL_read ∧
      Represents (lws_ssl_capable_read k no_ssl eng (some h) st w len).2
        (if w ∈ l then l else w :: l) ∧
      (if w ∈ l then l else w :: l).count w = 1 ∧
      (w ∈ l → (lws_ssl_capable_read k no_ssl eng (some h) st w len).2 = st) := by
  by_cases hw : w ∈ l
  · have e := capable_read_keeps_linked k no_ssl eng h st w len l hrep hw hn hpos hpend
    rw [e, if_pos hw]
    exact ⟨rfl, hrep, List.count_eq_one_of_mem hrep.nodup hw, fun _ => rfl⟩
  · obtain ⟨e1, e2⟩ := capable_read_links_head k no_ssl eng h st w len l hrep hw hn hpos hpend
    rw [if_neg hw]
    refine ⟨e1, e2, ?_, fun hc => absurd hc hw⟩
    exact List.count_eq_one_of_mem e2.nodup (List.mem_cons_self _ _)

/-- C1, concrete instance: an empty list, a 10-byte buffer filled exactly and 5 more bytes
pending put connection 7 on the list, alone. -/
theorem capable_read_full_buffer_links_witness :
    (lws_ssl_capable_read linuxOpenSSL (fun st _ _ => (0, st)) ⟨10, 0, 5⟩ (some 1)
        emptyPending 7 10).1 = 10 ∧
      Represents (lws_ssl_capable_read linuxOpenSSL (fun st _ _ => (0, st)) ⟨10, 0, 5⟩
        (some 1) emptyPending 7 10).2 [7] :=
  ⟨(capable_read_full_buffer_links linuxOpenSSL (fun st _ _ => (0, st)) ⟨10, 0, 5⟩ 1
      emptyPending 7 10 [] represents_emptyPending rfl (by decide) (by decide)).1,
   (capable_read_full_buffer_links linuxOpenSSL (fun st _ _ => (0, st)) ⟨10, 0, 5⟩ 1
      emptyPending 7 10 [] represents_emptyPending rfl (by decide) (by decide)).2.1⟩

/-- C1 as stated fails for a zero-length request: `SSL_read` returns `n = len = 0` and 5
bytes are pending, yet the call returns `LWS_SSL_CAPABLE_ERROR` (not `n`) and connection 7
is on no list afterwards, since a result of 0 is taken for a shut-down connection before
the pending count is looked at. -/
theorem capable_read_zero_length_not_linked :
    Represents emptyPending [] ∧
      (⟨0, 0, 5⟩ : ReadEngine).SSL_read = (0 : Int) ∧
      (⟨0, 0, 5⟩ : ReadEngine).SSL_pending ≠ 0 ∧
      (lws_ssl_capable_read linuxOpenSSL (fun st _ _ => (0, st)) ⟨0, 0, 5⟩ (some 1)
        emptyPending 7 0).1 = -1 ∧
      ¬ ∃ l, Represents (lws_ssl_capable_read linuxOpenSSL (fun st _ _ => (0, st))
        ⟨0, 0, 5⟩ (some 1) emptyPending 7 0).2 l ∧ 7 ∈ l := by
  refine ⟨represents_emptyPending, rfl, by decide, rfl, ?_⟩
  rintro ⟨l, hl, hmem⟩
  have e : (lws_ssl_capable_read linuxOpenSSL (fun st _ _ => (0, st))
        ⟨0, 0, 5⟩ (some 1) emptyPending 7 0).2 = emptyPending := rfl
  rw [e] at hl
  rw [hl.unique represents_emptyPending] at hmem
  simp at hmem

/-- C2 (as amended): for a connection with a live TLS session and a well-formed
pending-read list with member sequence `l`, when `SSL_read` returns `n > 0` and either
`n ≠ len` or `SSL_pending` is zero, `lws_ssl_capable_read` returns `n` and the connection is
absent afterwards (the list is `l` with the connection erased); when `SSL_read` returns
zero or a negative value, the list is left exactly as it was. -/
theorem capable_read_short_unlinks (k : Consts)
    (no_ssl : PendingState → Nat → Int → Int × PendingState) (eng : ReadEngine) (h : Nat)
    (st : PendingState) (w : Nat) (len : Int) (l : List Nat) (hrep : Represents st l) :
    (0 < eng.SSL_read → eng.SSL_read ≠ len ∨ eng.SSL_pending = 0 →
      (lws_ssl_capable_read k no_ssl eng (some h) st w len).1 = eng.SSL_read ∧
      Represents (lws_ssl_capable_read k no_ssl eng (some h) st w len).2 (l.erase w) ∧
      w ∉ l.erase w) ∧
    (eng.SSL_read ≤ 0 → (lws_ssl_capable_read k no_ssl eng (some h) st w len).2 = st) := by
  constructor
  · intro hpos hc
    have h0 : eng.SSL_read ≠ 0 := ne_of_gt hpos
    have h1 : ¬ eng.SSL_read < 0 := not_lt.2 hpos.le
    have e : lws_ssl_capable_read k no_ssl eng (some h) st w len =
        (eng.SSL_read, lws_ssl_remove_wsi_from_buffered_list st w) := by
      unfold lws_ssl_capable_read
      simp only [reduceCtorEq, if_false, h0, h1]
      rcases hc with hc | hc
      · simp [hc]
      · by_cases hl : eng.SSL_read = len
        · simp [hl.symm, hc]
        · simp [hl]
    rw [e]
    exact ⟨rfl, hrep.remove w, fun hm => (List.Nodup.mem_erase_iff hrep.nodup).1 hm |>.1 rfl⟩
  · intro hle
    unfold lws_ssl_capable_read
    by_cases h0 : eng.SSL_read = 0
    · simp [h0]
    · have h1 : eng.SSL_read < 0 := lt_of_le_of_ne hle h0
      simp only [reduceCtorEq, if_false, h0, h1, if_true]
      split <;> rfl

/-- C2, concrete instance: connection 7 is on the list, a 10-byte read gives 4 bytes, and
connection 7 is unlinked. -/
theorem capable_read_short_unlinks_witness :
    (lws_ssl_capable_read linuxOpenSSL (fun st _ _ => (0, st)) ⟨4, 0, 5⟩ (some 1)
        (pendingOf [7]) 7 10).1 = 4 ∧
      Represents (lws_ssl_capable_read linuxOpenSSL (fun st _ _ => (0, st)) ⟨4, 0, 5⟩
        (some 1) (pendingOf [7]) 7 10).2 [] :=
  ⟨((capable_read_short_unlinks linuxOpenSSL (fun st _ _ => (0, st)) ⟨4, 0, 5⟩ 1
      (pendingOf [7]) 7 10 [7] (represents_pendingOf (by decide))).1 (by decide)
      (Or.inl (by decide))).1,
   ((capable_read_short_unlinks linuxOpenSSL (fun st _ _ => (0, st)) ⟨4, 0, 5⟩ 1
      (pendingOf [7]) 7 10 [7] (represents_pendingOf (by decide))).1 (by decide)
      (Or.inl (by decide))).2.1⟩

/-- C2 as stated fails for a zero and for a negative engine result: connection 7 is on
the list, `SSL_read` returns 0 (respectively -1 with `SSL_ERROR_WANT_READ`) for a 10-byte
request with nothing pending, and connection 7 is still on the list after the call. -/
theorem capable_read_zero_result_stays_linked :
    Represents (pendingOf [7]) [7] ∧
      (lws_ssl_capable_read linuxOpenSSL (fun st _ _ => (0, st)) ⟨0, 0, 0⟩ (some 1)
        (pendingOf [7]) 7 10).1 = -1 ∧
      Represents (lws_ssl_capable_read linuxOpenSSL (fun st _ _ => (0, st)) ⟨0, 0, 0⟩
        (some 1) (pendingOf [7]) 7 10).2 [7] ∧
      (lws_ssl_capable_read linuxOpenSSL (fun st _ _ => (0, st)) ⟨-1, 2, 0⟩ (some 1)
        (pendingOf [7]) 7 10).1 = -2 ∧
      Represents (lws_ssl_capable_read linuxOpenSSL (fun st _ _ => (0, st)) ⟨-1, 2, 0⟩
        (some 1) (pendingOf [7]) 7 10).2 [7] ∧
      (7 : Nat) ∈ [7] :=
  ⟨represents_pendingOf (by decide), rfl, represents_pendingOf (by decide), rfl,
    represents_pendingOf (by decide), by decide⟩

/-- C10: with a live TLS session `lws_ssl_capable_read` classifies the result of `SSL_read`:
0 gives `LWS_SSL_CAPABLE_ERROR`; a negative result gives `LWS_SSL_CAPABLE_MORE_SERVICE` when
`SSL_get_error` is `SSL_ERROR_WANT_READ` or `SSL_ERROR_WANT_WRITE` and
`LWS_SSL_CAPABLE_ERROR` for every other error (so, the two codes being different, it is
`LWS_SSL_CAPABLE_MORE_SERVICE` exactly for those two errors); a positive result `n` is
returned as `n`.  With no TLS session the call is `lws_ssl_capable_read_no_ssl`. -/
theorem capable_read_classifies (k : Consts)
    (no_ssl : PendingState → Nat → Int → Int × PendingState) (eng : ReadEngine)
    (st : PendingState) (w : Nat) (len : Int) :
    (∀ h : Nat,
      (eng.SSL_read = 0 →
        (lws_ssl_capable_read k no_ssl eng (some h) st w len).1 = k.LWS_SSL_CAPABLE_ERROR) ∧
      (eng.SSL_read < 0 →
        (eng.SSL_get_error = k.SSL_ERROR_WANT_READ ∨
            eng.SSL_get_error = k.SSL_ERROR_WANT_WRITE →
          (lws_ssl_capable_read k no_ssl eng (some h) st w len).1 =
            k.LWS_SSL_CAPABLE_MORE_SERVICE) ∧
        (¬ (eng.SSL_get_error = k.SSL_ERROR_WANT_READ ∨
            eng.SSL_get_error = k.SSL_ERROR_WANT_WRITE) →
          (lws_ssl_capable_read k no_ssl eng (some h) st w len).1 =
            k.LWS_SSL_CAPABLE_ERROR) ∧
        (k.LWS_SSL_CAPABLE_MORE_SERVICE ≠ k.LWS_SSL_CAPABLE_ERROR →
          ((lws_ssl_capable_read k no_ssl eng (some h) st w len).1 =
              k.LWS_SSL_CAPABLE_MORE_SERVICE ↔
            (eng.SSL_get_error = k.SSL_ERROR_WANT_READ ∨
              eng.SSL_get_error = k.SSL_ERROR_WANT_WRITE)))) ∧
      (0 < eng.SSL_read →
        (lws_ssl_capable_read k no_ssl eng (some h) st w len).1 = eng.SSL_read)) ∧
    lws_ssl_capable_read k no_ssl eng none st w len = no_ssl st w len := by
  refine ⟨fun h => ⟨?_, ?_, ?_⟩, ?_⟩
  · intro h0
    simp [lws_ssl_capable_read, h0]
  · intro hneg
    have h0 : eng.SSL_read ≠ 0 := ne_of_lt hneg
    have e : (lws_ssl_capable_read k no_ssl eng (some h) st w len).1 =
          if eng.SSL_get_error = k.SSL_ERROR_WANT_READ ∨
            eng.SSL_get_error = k.SSL_ERROR_WANT_WRITE
          then k.LWS_SSL_CAPABLE_MORE_SERVICE else k.LWS_SSL_CAPABLE_ERROR := by
      unfold lws_ssl_capable_read
      simp only [reduceCtorEq, if_false, h0, hneg, if_true]
      split <;> rfl
    refine ⟨fun hc => by rw [e, if_pos hc], fun hc => by rw [e, if_neg hc], fun hd => ?_⟩
    rw [e]
    by_cases hc : eng.SSL_get_error = k.SSL_ERROR_WANT_READ ∨
        eng.SSL_get_error = k.SSL_ERROR_WANT_WRITE
    · simp [hc]
    · simp only [if_neg hc, hc, iff_false]
      exact fun hh => hd hh.symm
  · intro hpos
    have h0 : eng.SSL_read ≠ 0 := ne_of_gt hpos
    have h1 : ¬ eng.SSL_read < 0 := not_lt.2 hpos.le
    unfold lws_ssl_capable_read
    simp only [reduceCtorEq, if_false, h0, h1]
    repeat (first | rfl | split)
  · simp [lws_ssl_capable_read]

/-- C10, concrete instance: `SSL_read` gives -1 and the engine wants a read, so the call
returns `LWS_SSL_CAPABLE_MORE_SERVICE`. -/
theorem capable_read_classifies_witness :
    (lws_ssl_capable_read linuxOpenSSL (fun st _ _ => (0, st)) ⟨-1, 2, 0⟩ (some 1)
        emptyPending 7 10).1 = -2 :=
  (((capable_read_classifies linuxOpenSSL (fun st _ _ => (0, st)) ⟨-1, 2, 0⟩
      emptyPending 7 10).1 1).2.1 (by decide)).1 (Or.inl rfl)

/-! ## `lws_ssl_close` called twice -/

/-- C7: calling `lws_ssl_close` twice frees the TLS session at most once.  With a session
the first call shuts it down, closes its descriptor, frees it (these three calls, once
each, and nothing else), clears `wsi->ssl` and returns 1; the second call makes no call at
all, leaves the connection unchanged and returns 0.  Without a session the first call
already makes no call, leaves the connection unchanged and returns 0. -/
theorem ssl_close_twice (fd1 fd2 : Int) (c : Conn) :
    (∀ h : Nat, c.ssl = some h →
      (lws_ssl_close fd1 c).1 = 1 ∧
      (lws_ssl_close fd1 c).2.ssl = none ∧
      (lws_ssl_close fd1 c).2.calls = c.calls ++
        [Call.SSL_shutdown (some h), Call.compatible_close fd1, Call.SSL_free (some h)] ∧
      (lws_ssl_close fd1 c).2 = { c with ssl := none, calls := (lws_ssl_close fd1 c).2.calls } ∧
      lws_ssl_close fd2 (lws_ssl_close fd1 c).2 = (0, (lws_ssl_close fd1 c).2) ∧
      ((lws_ssl_close fd2 (lws_ssl_close fd1 c).2).2.calls.drop c.calls.length).count
        (Call.SSL_free (some h)) = 1) ∧
    (c.ssl = none → lws_ssl_close fd1 c = (0, c)) := by
  constructor
  · intro h hs
    have e : lws_ssl_close fd1 c = (1, { c with
        calls := c.calls ++ [Call.SSL_shutdown (some h), Call.compatible_close fd1,
          Call.SSL_free (some h)]
        ssl := none }) := by
      simp [lws_ssl_close, hs]
    rw [e]
    refine ⟨rfl, rfl, rfl, rfl, by simp [lws_ssl_close], ?_⟩
    simp [lws_ssl_close]
  · intro hs
    simp [lws_ssl_close, hs]

/-- C7, concrete instance: a connection with session 9 on descriptor 5. -/
theorem ssl_close_twice_witness :
    (lws_ssl_close 5 ⟨ConnMode.LWSCM_HTTP_SERVING, some 9, 1, false, 5, 0, 0, 1, []⟩).1 = 1 ∧
      lws_ssl_close 5
          (lws_ssl_close 5 ⟨ConnMode.LWSCM_HTTP_SERVING, some 9, 1, false, 5, 0, 0, 1, []⟩).2 =
        (0, (lws_ssl_close 5
          ⟨ConnMode.LWSCM_HTTP_SERVING, some 9, 1, false, 5, 0, 0, 1, []⟩).2) :=
  ⟨((ssl_close_twice 5 5 ⟨ConnMode.LWSCM_HTTP_SERVING, some 9, 1, false, 5, 0, 0, 1, []⟩).1
      9 rfl).1,
   ((ssl_close_twice 5 5 ⟨ConnMode.LWSCM_HTTP_SERVING, some 9, 1, false, 5, 0, 0, 1, []⟩).1
      9 rfl).2.2.2.2.1⟩

/-! ## The server-side handshake -/

/-- The model of `lws_change_pollfd` is `(events & ~_and) | _or`, bit by bit. -/
theorem lws_change_pollfd_testBit (events and_mask or_mask i : Nat) :
    (lws_change_pollfd events and_mask or_mask).testBit i =
      ((events.testBit i && !and_mask.testBit i) || or_mask.testBit i) := by
  unfold lws_change_pollfd
  rw [Nat.testBit_or, Nat.testBit_xor, Nat.testBit_and]
  cases events.testBit i <;> cases and_mask.testBit i <;> rfl

theorem service_ssl_eq_ack_pending (k : Consts) (vh : Vhost) (env : AcceptEnv) (c : Conn)
    (accept_fd : Int) (h : ReachesAckPending vh env c) :
    lws_server_socket_service_ssl k vh env c accept_fd =
      service_ssl_ack_pending k vh env (ack_pending_entry vh env c accept_fd) := by
  obtain ⟨hssl, hmode | ⟨hmode, hnew, hins⟩⟩ := h
  · simp [lws_server_socket_service_ssl, ack_pending_entry, hssl, hmode]
  · simp [lws_server_socket_service_ssl, ack_pending_entry, hssl, hmode, hnew, hins]

theorem ack_pending_entry_mode (vh : Vhost) (env : AcceptEnv) (c : Conn) (accept_fd : Int)
    (h : ReachesAckPending vh env c) :
    (ack_pending_entry vh env c accept_fd).mode = ConnMode.LWSCM_SSL_ACK_PENDING := by
  obtain ⟨_, hmode | ⟨hmode, _, _⟩⟩ := h
  · simp [ack_pending_entry, hmode]
  · simp [ack_pending_entry, hmode]

theorem ack_pending_entry_calls (vh : Vhost) (env : AcceptEnv) (c : Conn) (accept_fd : Int) :
    ∃ pre, (ack_pending_entry vh env c accept_fd).calls = c.calls ++ pre ∧
      ∀ x, Call.SSL_accept x ∉ pre := by
  unfold ack_pending_entry
  split
  · refine ⟨_, by simp only [List.append_assoc]; rfl, ?_⟩
    intro x
    cases env.rbio <;> cases env.wbio <;> simp
  · exact ⟨[], by simp, by simp⟩

theorem lws_change_pollfd_land_or (events and_mask or_mask : Nat) :
    lws_change_pollfd events and_mask or_mask &&& or_mask = or_mask := by
  apply Nat.eq_of_testBit_eq
  intro i
  rw [Nat.testBit_and, lws_change_pollfd_testBit]
  cases events.testBit i <;> cases and_mask.testBit i <;> cases or_mask.testBit i <;> rfl

theorem testBit_disjoint {a b : Nat} (h : a &&& b = 0) (i : Nat) :
    (a.testBit i && b.testBit i) = false := by
  rw [← Nat.testBit_and, h, Nat.zero_testBit]

/-- Clearing `out_mask` and then setting `in_mask`, a mask disjoint from it, leaves no
event of `out_mask` requested. -/
theorem rearm_read_clears (events in_mask out_mask : Nat) (hd : in_mask &&& out_mask = 0) :
    lws_change_pollfd (lws_change_pollfd events out_mask 0) 0 in_mask &&& out_mask = 0 := by
  apply Nat.eq_of_testBit_eq
  intro i
  have := testBit_disjoint hd i
  rw [Nat.testBit_and, lws_change_pollfd_testBit, lws_change_pollfd_testBit,
    Nat.zero_testBit]
  revert this
  cases events.testBit i <;> cases in_mask.testBit i <;> cases out_mask.testBit i <;> simp

/-- Clearing `out_mask` and then setting it again changes no bit outside `out_mask`. -/
theorem rearm_write_keeps (events out_mask i : Nat) (hi : out_mask.testBit i = false) :
    (lws_change_pollfd (lws_change_pollfd events out_mask 0) 0 out_mask).testBit i =
      events.testBit i := by
  rw [lws_change_pollfd_testBit, lws_change_pollfd_testBit, Nat.zero_testBit, hi]
  cases events.testBit i <;> rfl

theorem rearm_write_land (events in_mask out_mask : Nat) (hd : in_mask &&& out_mask = 0) :
    lws_change_pollfd (lws_change_pollfd events out_mask 0) 0 out_mask &&& in_mask =
      events &&& in_mask := by
  apply Nat.eq_of_testBit_eq
  intro i
  have := testBit_disjoint hd i
  rw [Nat.testBit_and, Nat.testBit_and, lws_change_pollfd_testBit, lws_change_pollfd_testBit,
    Nat.zero_testBit]
  revert this
  cases events.testBit i <;> cases in_mask.testBit i <;> cases out_mask.testBit i <;> simp

/-- C3: when control reaches the accept-pending case (directly, or by fall-through from
init) on a host with `allow_non_ssl_on_ssl_port`, the peek returns at least one byte, the
first byte is `' '` or more and clearing `POLLOUT` succeeds, then
`lws_server_socket_service_ssl` returns 0 with the TLS session shut down and freed,
`wsi->ssl = NULL`, `wsi->use_ssl = 0` and `mode = LWSCM_HTTP_SERVING`, and no `SSL_accept`
is among the calls made during the call. -/
theorem service_ssl_plaintext_fallback (k : Consts) (vh : Vhost) (env : AcceptEnv)
    (c : Conn) (accept_fd : Int) (hreach : ReachesAckPending vh env c)
    (hpeek : PlaintextPeek vh env) (hclear : env.change_pollfd_clear = 0) :
    (lws_server_socket_service_ssl k vh env c accept_fd).1 = 0 ∧
      (lws_server_socket_service_ssl k vh env c accept_fd).2.ssl = none ∧
      (lws_server_socket_service_ssl k vh env c accept_fd).2.use_ssl = 0 ∧
      (lws_server_socket_service_ssl k vh env c accept_fd).2.mode =
        ConnMode.LWSCM_HTTP_SERVING ∧
      (lws_server_socket_service_ssl k vh env c accept_fd).2.calls =
        (ack_pending_entry vh env c accept_fd).calls ++
          [Call.SSL_shutdown (ack_pending_entry vh env c accept_fd).ssl,
            Call.SSL_free (ack_pending_entry vh env c accept_fd).ssl,
            Call.lws_set_timeout PendingTimeout.PENDING_TIMEOUT_ESTABLISH_WITH_SERVER
              env.timeout_secs,
            Call.lws_http2_configure_if_upgraded] ∧
      ∃ added, (lws_server_socket_service_ssl k vh env c accept_fd).2.calls =
          c.calls ++ added ∧ ∀ x, Call.SSL_accept x ∉ added := by
  obtain ⟨hallow, hrecv, hbyte⟩ := hpeek
  have e : lws_server_socket_service_ssl k vh env c accept_fd =
      (0, { (ack_pending_entry vh env c accept_fd) with
        events := lws_change_pollfd (ack_pending_entry vh env c accept_fd).events k.LWS_POLLOUT 0
        use_ssl := 0
        ssl := none
        redirect_to_https :=
          if env.redirect_http_to_https then true
          else (ack_pending_entry vh env c accept_fd).redirect_to_https
        mode := ConnMode.LWSCM_HTTP_SERVING
        calls := (ack_pending_entry vh env c accept_fd).calls ++
          [Call.SSL_shutdown (ack_pending_entry vh env c accept_fd).ssl,
            Call.SSL_free (ack_pending_entry vh env c accept_fd).ssl,
            Call.lws_set_timeout PendingTimeout.PENDING_TIMEOUT_ESTABLISH_WITH_SERVER
              env.timeout_secs,
            Call.lws_http2_configure_if_upgraded] }) := by
    rw [service_ssl_eq_ack_pending k vh env c accept_fd hreach]
    unfold service_ssl_ack_pending
    have hcond : (vh.allow_non_ssl_on_ssl_port = true ∧ env.recv ≥ 1 ∧ env.serv_buf0 ≥ 32) :=
      ⟨hallow, hrecv, hbyte⟩
    simp only [hclear, ne_eq, not_true_eq_false, if_false, hcond, and_self, if_true,
      service_ssl_accepted]
    cases env.redirect_http_to_https <;> simp
  rw [e]
  refine ⟨rfl, rfl, rfl, rfl, rfl, ?_⟩
  obtain ⟨pre, hpre, hno⟩ := ack_pending_entry_calls vh env c accept_fd
  refine ⟨pre ++ [Call.SSL_shutdown (ack_pending_entry vh env c accept_fd).ssl,
      Call.SSL_free (ack_pending_entry vh env c accept_fd).ssl,
      Call.lws_set_timeout PendingTimeout.PENDING_TIMEOUT_ESTABLISH_WITH_SERVER
        env.timeout_secs,
      Call.lws_http2_configure_if_upgraded], ?_, ?_⟩
  · simp only [hpre, List.append_assoc]
  · intro x hx
    rcases List.mem_append.1 hx with h | h
    · exact hno x h
    · simp at h

/-- C3, concrete instance: the peek shows a request line starting with G. -/
theorem service_ssl_plaintext_fallback_witness :
    (lws_server_socket_service_ssl linuxOpenSSL exampleVhost envPlaintext exampleConn 5).1 = 0 ∧
      (lws_server_socket_service_ssl linuxOpenSSL exampleVhost envPlaintext exampleConn 5).2.ssl
        = none ∧
      (lws_server_socket_service_ssl linuxOpenSSL exampleVhost envPlaintext
        exampleConn 5).2.mode = ConnMode.LWSCM_HTTP_SERVING :=
  ⟨(service_ssl_plaintext_fallback linuxOpenSSL exampleVhost envPlaintext exampleConn 5
      (by decide) (by decide) rfl).1,
   (service_ssl_plaintext_fallback linuxOpenSSL exampleVhost envPlaintext exampleConn 5
      (by decide) (by decide) rfl).2.1,
   (service_ssl_plaintext_fallback linuxOpenSSL exampleVhost envPlaintext exampleConn 5
      (by decide) (by decide) rfl).2.2.2.1⟩

theorem ack_pending_accept_step (k : Consts) (vh : Vhost) (env : AcceptEnv) (c : Conn)
    (hclear : env.change_pollfd_clear = 0) (hdriven : AcceptStepDriven k vh env)
    (hacc : env.SSL_accept ≠ 1) :
    service_ssl_ack_pending k vh env c =
      service_ssl_go_again k env env.SSL_get_error
        { c with
          events := lws_change_pollfd c.events k.LWS_POLLOUT 0
          calls := c.calls ++ [Call.SSL_accept c.ssl] } := by
  unfold service_ssl_ack_pending
  simp only [hclear, ne_eq, not_true_eq_false, if_false, hacc]
  rcases hdriven with hoff | ⟨h1, h2, h3⟩
  · simp [hoff]
  · have c1 : ¬ (vh.allow_non_ssl_on_ssl_port = true ∧ env.recv ≥ 1 ∧ env.serv_buf0 ≥ 32) :=
      fun h => h1 ⟨h.2.1, h.2.2⟩
    have c2 : ¬ (vh.allow_non_ssl_on_ssl_port = true ∧ env.recv = 0) := fun h => h2 h.2
    have c3 : ¬ (vh.allow_non_ssl_on_ssl_port = true ∧ env.recv < 0 ∧
        (env.errno = k.LWS_EAGAIN ∨ env.errno = k.LWS_EWOULDBLOCK)) := fun h => h3 h.2
    rw [if_neg c1, if_neg c2, if_neg c3]

theorem ack_pending_would_block (k : Consts) (vh : Vhost) (env : AcceptEnv) (c : Conn)
    (hclear : env.change_pollfd_clear = 0) (hallow : vh.allow_non_ssl_on_ssl_port = true)
    (hrecv : env.recv < 0)
    (herr : env.errno = k.LWS_EAGAIN ∨ env.errno = k.LWS_EWOULDBLOCK) :
    service_ssl_ack_pending k vh env c =
      service_ssl_go_again k env k.SSL_ERROR_WANT_READ
        { c with events := lws_change_pollfd c.events k.LWS_POLLOUT 0 } := by
  unfold service_ssl_ack_pending
  have c1 : ¬ (vh.allow_non_ssl_on_ssl_port = true ∧ env.recv ≥ 1 ∧ env.serv_buf0 ≥ 32) := by
    intro h; omega
  have c2 : ¬ (vh.allow_non_ssl_on_ssl_port = true ∧ env.recv = 0) := by
    intro h; omega
  have c3 : (vh.allow_non_ssl_on_ssl_port = true ∧ env.recv < 0 ∧
      (env.errno = k.LWS_EAGAIN ∨ env.errno = k.LWS_EWOULDBLOCK)) := ⟨hallow, hrecv, herr⟩
  simp only [hclear, ne_eq, not_true_eq_false, if_false]
  rw [if_neg c1, if_neg c2, if_pos c3]

/-- C6 (as amended): when control reaches the accept-pending case and the accept step yields
retry-read (`SSL_accept` fails with `SSL_ERROR_WANT_READ`, or the fallback peek reports
`EAGAIN` / `EWOULDBLOCK`), both `lws_change_pollfd` calls succeeding, then
`lws_server_socket_service_ssl` returns 0, the mode is `LWSCM_SSL_ACK_PENDING`, and the
poll registration requests `POLLIN` and not `POLLOUT`, whatever it was before
(`LWS_POLLIN` being a nonzero mask disjoint from `LWS_POLLOUT`). -/
theorem service_ssl_retry_read (k : Consts) (vh : Vhost) (env : AcceptEnv) (c : Conn)
    (accept_fd : Int) (hreach : ReachesAckPending vh env c)
    (hretry : YieldsRetryRead k vh env) (hclear : env.change_pollfd_clear = 0)
    (hrearm : env.change_pollfd_rearm = 0) (hin : k.LWS_POLLIN ≠ 0)
    (hdisj : k.LWS_POLLIN &&& k.LWS_POLLOUT = 0) :
    (lws_server_socket_service_ssl k vh env c accept_fd).1 = 0 ∧
      (lws_server_socket_service_ssl k vh env c accept_fd).2.mode =
        ConnMode.LWSCM_SSL_ACK_PENDING ∧
      (lws_server_socket_service_ssl k vh env c accept_fd).2.events =
        lws_change_pollfd
          (lws_change_pollfd (ack_pending_entry vh env c accept_fd).events k.LWS_POLLOUT 0)
          0 k.LWS_POLLIN ∧
      Requested (lws_server_socket_service_ssl k vh env c accept_fd).2.events k.LWS_POLLIN ∧
      ¬ Requested (lws_server_socket_service_ssl k vh env c accept_fd).2.events
        k.LWS_POLLOUT := by
  have hmode := ack_pending_entry_mode vh env c accept_fd hreach
  have key : (lws_server_socket_service_ssl k vh env c accept_fd).1 = 0 ∧
      (lws_server_socket_service_ssl k vh env c accept_fd).2.mode =
        ConnMode.LWSCM_SSL_ACK_PENDING ∧
      (lws_server_socket_service_ssl k vh env c accept_fd).2.events =
        lws_change_pollfd
          (lws_change_pollfd (ack_pending_entry vh env c accept_fd).events k.LWS_POLLOUT 0)
          0 k.LWS_POLLIN := by
    rw [service_ssl_eq_ack_pending k vh env c accept_fd hreach]
    rcases hretry with ⟨hallow, hrecv, herr⟩ | ⟨hdriven, hacc, hget⟩
    · rw [ack_pending_would_block k vh env _ hclear hallow hrecv herr]
      simp [service_ssl_go_again, hrearm, hmode]
    · rw [ack_pending_accept_step k vh env _ hclear hdriven hacc]
      simp [service_ssl_go_again, hrearm, hmode, hget]
  obtain ⟨h1, h2, h3⟩ := key
  refine ⟨h1, h2, h3, ?_, ?_⟩
  · unfold Requested
    rw [h3, lws_change_pollfd_land_or]
    exact hin
  · unfold Requested
    rw [h3, rearm_read_clears _ _ _ hdisj]
    exact fun h => h rfl

/-- C6, concrete instance: `SSL_accept` returns -1 with `SSL_ERROR_WANT_READ` on a
connection registered for `POLLOUT` only (events = 4); afterwards it is registered for
`POLLIN` only (events = 1). -/
theorem service_ssl_retry_read_witness :
    (lws_server_socket_service_ssl linuxOpenSSL exampleVhost envWantRead
        exampleConnPollout 5).1 = 0 ∧
      (lws_server_socket_service_ssl linuxOpenSSL exampleVhost envWantRead
        exampleConnPollout 5).2.events = 1 :=
  ⟨(service_ssl_retry_read linuxOpenSSL exampleVhost envWantRead exampleConnPollout 5
      (by decide) (by decide) rfl rfl (by decide) (by decide)).1,
   (service_ssl_retry_read linuxOpenSSL exampleVhost envWantRead exampleConnPollout 5
      (by decide) (by decide) rfl rfl (by decide) (by decide)).2.2.1⟩

/-- C6 as stated fails when the re-arming `lws_change_pollfd(wsi, 0, LWS_POLLIN)` fails: a
connection in `LWSCM_SSL_ACK_PENDING` registered for `POLLOUT` only whose `SSL_accept`
yields `SSL_ERROR_WANT_READ` gets 1 returned, not 0, and `POLLIN` is not requested in its
registration (events = 0) after the call. -/
theorem service_ssl_retry_read_rearm_fails :
    exampleConnPollout.mode = ConnMode.LWSCM_SSL_ACK_PENDING ∧
      YieldsRetryRead linuxOpenSSL exampleVhost envWantReadRearmFails ∧
      envWantReadRearmFails.change_pollfd_clear = 0 ∧
      (lws_server_socket_service_ssl linuxOpenSSL exampleVhost envWantReadRearmFails
        exampleConnPollout 5).1 = 1 ∧
      (lws_server_socket_service_ssl linuxOpenSSL exampleVhost envWantReadRearmFails
        exampleConnPollout 5).2.events = 0 ∧
      ¬ Requested (lws_server_socket_service_ssl linuxOpenSSL exampleVhost
        envWantReadRearmFails exampleConnPollout 5).2.events linuxOpenSSL.LWS_POLLIN := by
  decide

/-- C5 (as amended): when control reaches the accept-pending case and the accept step
yields retry-write (`SSL_accept` fails with `SSL_ERROR_WANT_WRITE`), both
`lws_change_pollfd` calls succeeding, then `lws_server_socket_service_ssl` returns 0, the
mode is `LWSCM_SSL_ACK_PENDING`, `POLLOUT` is requested, and every event bit outside
`LWS_POLLOUT` is as it was on entry to the accept-pending case; in particular `POLLIN` is
requested after the call exactly if it was requested before. -/
theorem service_ssl_retry_write (k : Consts) (vh : Vhost) (env : AcceptEnv) (c : Conn)
    (accept_fd : Int) (hreach : ReachesAckPending vh env c)
    (hretry : YieldsRetryWrite k vh env) (hclear : env.change_pollfd_clear = 0)
    (hrearm : env.change_pollfd_rearm = 0)
    (hne : k.SSL_ERROR_WANT_WRITE ≠ k.SSL_ERROR_WANT_READ) (hout : k.LWS_POLLOUT ≠ 0)
    (hdisj : k.LWS_POLLIN &&& k.LWS_POLLOUT = 0) :
    (lws_server_socket_service_ssl k vh env c accept_fd).1 = 0 ∧
      (lws_server_socket_service_ssl k vh env c accept_fd).2.mode =
        ConnMode.LWSCM_SSL_ACK_PENDING ∧
      Requested (lws_server_socket_service_ssl k vh env c accept_fd).2.events k.LWS_POLLOUT ∧
      (∀ i, k.LWS_POLLOUT.testBit i = false →
        (lws_server_socket_service_ssl k vh env c accept_fd).2.events.testBit i =
          (ack_pending_entry vh env c accept_fd).events.testBit i) ∧
      (Requested (lws_server_socket_service_ssl k vh env c accept_fd).2.events k.LWS_POLLIN ↔
        Requested (ack_pending_entry vh env c accept_fd).events k.LWS_POLLIN) := by
  have hmode := ack_pending_entry_mode vh env c accept_fd hreach
  obtain ⟨hdriven, hacc, hget⟩ := hretry
  have key : (lws_server_socket_service_ssl k vh env c accept_fd).1 = 0 ∧
      (lws_server_socket_service_ssl k vh env c accept_fd).2.mode =
        ConnMode.LWSCM_SSL_ACK_PENDING ∧
      (lws_server_socket_service_ssl k vh env c accept_fd).2.events =
        lws_change_pollfd
          (lws_change_pollfd (ack_pending_entry vh env c accept_fd).events k.LWS_POLLOUT 0)
          0 k.LWS_POLLOUT := by
    rw [service_ssl_eq_ack_pending k vh env c accept_fd hreach,
      ack_pending_accept_step k vh env _ hclear hdriven hacc]
    simp [service_ssl_go_again, hrearm, hmode, hget, hne]
  obtain ⟨h1, h2, h3⟩ := key
  refine ⟨h1, h2, ?_, ?_, ?_⟩
  · unfold Requested
    rw [h3, lws_change_pollfd_land_or]
    exact hout
  · intro i hi
    rw [h3, rearm_write_keeps _ _ _ hi]
  · unfold Requested
    rw [h3, rearm_write_land _ _ _ hdisj]

/-- C5, concrete instance: `SSL_accept` returns -1 with `SSL_ERROR_WANT_WRITE` on a
connection registered for `POLLIN`; `POLLOUT` is requested afterwards. -/
theorem service_ssl_retry_write_witness :
    (lws_server_socket_service_ssl linuxOpenSSL exampleVhost envWantWrite exampleConn 5).1 = 0 ∧
      Requested (lws_server_socket_service_ssl linuxOpenSSL exampleVhost envWantWrite
        exampleConn 5).2.events linuxOpenSSL.LWS_POLLOUT :=
  ⟨(service_ssl_retry_write linuxOpenSSL exampleVhost envWantWrite exampleConn 5 (by decide)
      (by decide) rfl rfl (by decide) (by decide) (by decide)).1,
   (service_ssl_retry_write linuxOpenSSL exampleVhost envWantWrite exampleConn 5 (by decide)
      (by decide) rfl rfl (by decide) (by decide) (by decide)).2.2.1⟩

/-- C5 as stated fails: a connection in `LWSCM_SSL_ACK_PENDING` registered for `POLLIN`
(events = 1) whose `SSL_accept` yields `SSL_ERROR_WANT_WRITE` ends with events = 5, that
is `POLLOUT` and `POLLIN` both requested: the registration is not write-only. -/
theorem service_ssl_retry_write_keeps_pollin :
    exampleConn.mode = ConnMode.LWSCM_SSL_ACK_PENDING ∧
      YieldsRetryWrite linuxOpenSSL exampleVhost envWantWrite ∧
      (lws_server_socket_service_ssl linuxOpenSSL exampleVhost envWantWrite exampleConn 5).1 = 0 ∧
      (lws_server_socket_service_ssl linuxOpenSSL exampleVhost envWantWrite
        exampleConn 5).2.events = 5 ∧
      Requested (lws_server_socket_service_ssl linuxOpenSSL exampleVhost envWantWrite
        exampleConn 5).2.events linuxOpenSSL.LWS_POLLIN := by
  refine ⟨rfl, by decide, by decide, by decide, by decide⟩

/-! ## The client-side certificate check -/

theorem client_connect2_of_succeeded (k : Consts) (env : ConnectEnv) (c : Conn)
    (hdone : HandshakeSucceeded env c) :
    ∃ c1 : Conn, lws_ssl_client_connect2 k env c = client_connect2_verify k env c1 ∧
      c1.use_ssl = c.use_ssl ∧
      ∃ pre, c1.calls = c.calls ++ pre ∧ pre.filter Call.isClose = [] := by
  by_cases hmode : c.mode = ConnMode.LWSCM_WSCL_WAITING_SSL
  · have hpos : 0 < env.SSL_connect := by
      rcases hdone with h | h
      · exact absurd hmode h
      · exact h
    have h1 : ¬ env.SSL_connect < 0 := not_lt.2 hpos.le
    have h2 : ¬ env.SSL_connect ≤ 0 := not_le.2 hpos
    refine ⟨{ c with calls := c.calls ++ [Call.SSL_connect c.ssl] }, ?_, rfl,
      [Call.SSL_connect c.ssl], rfl, rfl⟩
    simp [lws_ssl_client_connect2, client_connect2_waiting, client_connect_error_queue,
      hmode, h1, h2]
  · refine ⟨c, ?_, rfl, [], by simp, rfl⟩
    simp [lws_ssl_client_connect2, client_connect2_waiting, hmode]

/-- C4: for a client connection whose engine handshake has succeeded,
`lws_ssl_client_connect2` returns 1 if and only if `SSL_get_verify_result` is `X509_V_OK`,
or is one of the two self-signed results while `wsi->use_ssl == 2`; then no
`lws_close_free_wsi` is made.  In every other case it returns 0 and the calls made during
the call contain exactly one `lws_close_free_wsi`, with `LWS_CLOSE_STATUS_NOSTATUS`. -/
theorem client_connect2_verifies (k : Consts) (env : ConnectEnv) (c : Conn)
    (hdone : HandshakeSucceeded env c) :
    ((lws_ssl_client_connect2 k env c).1 = 1 ↔ VerifyAccepted k env c) ∧
      (VerifyAccepted k env c →
        ((lws_ssl_client_connect2 k env c).2.calls.drop c.calls.length).filter Call.isClose
          = []) ∧
      (¬ VerifyAccepted k env c →
        (lws_ssl_client_connect2 k env c).1 = 0 ∧
        ((lws_ssl_client_connect2 k env c).2.calls.drop c.calls.length).filter Call.isClose
          = [Call.lws_close_free_wsi k.LWS_CLOSE_STATUS_NOSTATUS]) := by
  obtain ⟨c1, e, huse, pre, hpre, hno⟩ := client_connect2_of_succeeded k env c hdone
  rw [e]
  by_cases hacc : VerifyAccepted k env c
  · have r : client_connect2_verify k env c1 = (1, c1) := by
      unfold client_connect2_verify
      rcases hacc with h | ⟨h, hu⟩
      · simp [h]
      · by_cases hok : env.SSL_get_verify_result = k.X509_V_OK
        · simp [hok]
        · simp [hok, h, huse, hu]
    rw [r]
    refine ⟨⟨fun _ => hacc, fun _ => rfl⟩, fun _ => ?_, fun h => absurd hacc h⟩
    simp [hpre, hno]
  · have hok : env.SSL_get_verify_result ≠ k.X509_V_OK := fun h => hacc (Or.inl h)
    have hself : ¬ ((env.SSL_get_verify_result = k.X509_V_ERR_DEPTH_ZERO_SELF_SIGNED_CERT ∨
        env.SSL_get_verify_result = k.X509_V_ERR_SELF_SIGNED_CERT_IN_CHAIN) ∧
        c1.use_ssl = 2) := by
      rw [huse]
      exact fun h => hacc (Or.inr h)
    have r : client_connect2_verify k env c1 =
        (0, { c1 with calls := c1.calls ++
          [Call.lws_close_free_wsi k.LWS_CLOSE_STATUS_NOSTATUS] }) := by
      unfold client_connect2_verify
      simp only [ne_eq, hok, not_false_eq_true, if_true]
      rw [if_neg hself]
    rw [r]
    refine ⟨⟨fun h => absurd (show (0 : Int) = 1 from h) (by decide), fun h => absurd h hacc⟩,
      fun h => absurd h hacc, fun _ => ⟨rfl, ?_⟩⟩
    simp [hpre, hno, Call.isClose]

/-- C4, concrete instance: a self-signed certificate on a connection that verifies
strictly (`use_ssl = 1`) is refused: the connection is closed once and 0 is returned. -/
theorem client_connect2_verifies_witness :
    (lws_ssl_client_connect2 linuxOpenSSL envSelfSigned exampleClient).1 = 0 ∧
      ((lws_ssl_client_connect2 linuxOpenSSL envSelfSigned exampleClient).2.calls.drop
          exampleClient.calls.length).filter Call.isClose =
        [Call.lws_close_free_wsi linuxOpenSSL.LWS_CLOSE_STATUS_NOSTATUS] :=
  (client_connect2_verifies linuxOpenSSL envSelfSigned exampleClient (by decide)).2.2
    (by decide)

/-! ## Ownership of the client context -/

theorem mem_SSL_CTX_free_calls (vh : Vhost) (x : Nat) :
    Call.SSL_CTX_free x ∈ SSL_CTX_free_calls vh ↔
      vh.ssl_ctx = some x ∨ (vh.ssl_client_ctx = some x ∧ vh.user_supplied_ssl_ctx = false) := by
  unfold SSL_CTX_free_calls
  cases h1 : vh.ssl_ctx <;> cases h2 : vh.ssl_client_ctx <;>
    cases h3 : vh.user_supplied_ssl_ctx <;> simp [eq_comm]

theorem mem_lws_ssl_destroy (vh : Vhost) (x : Nat) :
    Call.SSL_CTX_free x ∈ lws_ssl_destroy vh [] ↔
      vh.context_do_ssl_global_init = true ∧ Call.SSL_CTX_free x ∈ SSL_CTX_free_calls vh := by
  unfold lws_ssl_destroy
  cases h : vh.context_do_ssl_global_init <;> simp

/-- C8: with global TLS init enabled and a caller-supplied client context `p`,
`lws_context_init_client_ssl` stores `p` in `vhost->ssl_client_ctx`, sets
`user_supplied_ssl_ctx`, makes no call at all (so creates no context) and returns 0; on the
resulting host neither `lws_ssl_destroy` nor `lws_ssl_SSL_CTX_destroy` passes `p` to
`SSL_CTX_free` (`p` being another object than the host's own server context).  On any host
a non-null server context and a non-null client context that is not caller-supplied are
each passed to `SSL_CTX_free` by `lws_ssl_SSL_CTX_destroy`, and by `lws_ssl_destroy` when
global TLS init is enabled; when it is not enabled `lws_ssl_destroy` makes no call. -/
theorem client_ctx_ownership (k : Consts) (b : BuildFlags) (env : InitClientEnv)
    (info : CreationInfo) (vh : Vhost) (calls : List Call) (p : Nat)
    (hinit : info.do_ssl_global_init = true) (hprov : info.provided_client_ssl_ctx = some p)
    (hown : vh.ssl_ctx ≠ some p) :
    lws_context_init_client_ssl k b env info vh calls =
        (0, { vh with ssl_client_ctx := some p, user_supplied_ssl_ctx := true }, calls) ∧
      Call.SSL_CTX_free p ∉
        lws_ssl_destroy (lws_context_init_client_ssl k b env info vh calls).2.1 [] ∧
      Call.SSL_CTX_free p ∉
        lws_ssl_SSL_CTX_destroy (lws_context_init_client_ssl k b env info vh calls).2.1 [] ∧
      (∀ (v : Vhost) (x : Nat), v.ssl_ctx = some x →
        Call.SSL_CTX_free x ∈ lws_ssl_SSL_CTX_destroy v [] ∧
        (v.context_do_ssl_global_init = true → Call.SSL_CTX_free x ∈ lws_ssl_destroy v [])) ∧
      (∀ (v : Vhost) (x : Nat), v.ssl_client_ctx = some x → v.user_supplied_ssl_ctx = false →
        Call.SSL_CTX_free x ∈ lws_ssl_SSL_CTX_destroy v [] ∧
        (v.context_do_ssl_global_init = true → Call.SSL_CTX_free x ∈ lws_ssl_destroy v [])) ∧
      (∀ (v : Vhost) (cs : List Call), v.context_do_ssl_global_init = false →
        lws_ssl_destroy v cs = cs) := by
  have e : lws_context_init_client_ssl k b env info vh calls =
      (0, { vh with ssl_client_ctx := some p, user_supplied_ssl_ctx := true }, calls) := by
    simp [lws_context_init_client_ssl, hinit, hprov]
  have hfree : Call.SSL_CTX_free p ∉ SSL_CTX_free_calls
      { vh with ssl_client_ctx := some p, user_supplied_ssl_ctx := true } := by
    rw [mem_SSL_CTX_free_calls]
    rintro (h | ⟨_, h⟩)
    · exact hown h
    · exact Bool.noConfusion h
  refine ⟨e, ?_, ?_, ?_, ?_, ?_⟩
  · rw [e, mem_lws_ssl_destroy]
    exact fun h => hfree h.2
  · rw [e]
    simpa [lws_ssl_SSL_CTX_destroy] using hfree
  · intro v x hx
    have hm : Call.SSL_CTX_free x ∈ SSL_CTX_free_calls v :=
      (mem_SSL_CTX_free_calls v x).2 (Or.inl hx)
    exact ⟨by simpa [lws_ssl_SSL_CTX_destroy] using hm,
      fun hg => (mem_lws_ssl_destroy v x).2 ⟨hg, hm⟩⟩
  · intro v x hx hu
    have hm : Call.SSL_CTX_free x ∈ SSL_CTX_free_calls v :=
      (mem_SSL_CTX_free_calls v x).2 (Or.inr ⟨hx, hu⟩)
    exact ⟨by simpa [lws_ssl_SSL_CTX_destroy] using hm,
      fun hg => (mem_lws_ssl_destroy v x).2 ⟨hg, hm⟩⟩
  · intro v cs hg
    simp [lws_ssl_destroy, hg]

/-- C8, concrete instance: client context 77 is supplied to a host whose server context
is 100; destroying the host frees 100 and never 77. -/
theorem client_ctx_ownership_witness :
    (lws_context_init_client_ssl linuxOpenSSL ⟨true, true⟩ envInitClient exampleInfo
        exampleVhost []).1 = 0 ∧
      Call.SSL_CTX_free 77 ∉ lws_ssl_destroy (lws_context_init_client_ssl linuxOpenSSL
        ⟨true, true⟩ envInitClient exampleInfo exampleVhost []).2.1 [] :=
  ⟨congrArg Prod.fst (client_ctx_ownership linuxOpenSSL ⟨true, true⟩ envInitClient
      exampleInfo exampleVhost [] 77 rfl rfl (by decide)).1,
   (client_ctx_ownership linuxOpenSSL ⟨true, true⟩ envInitClient exampleInfo exampleVhost []
      77 rfl rfl (by decide)).2.1⟩

/-! ## Server Name Indication stays on the accepting port -/

theorem select_vhost_by_port_and_name_port (l : List Vhost) (p : Int) (n : String)
    (u : Vhost) (h : select_vhost_by_port_and_name l p n = some u) :
    u.listen_port = p ∧ u.name = n ∧ u ∈ l := by
  unfold select_vhost_by_port_and_name at h
  have h1 := List.find?_some h
  have h2 := List.mem_of_find?_eq_some h
  simp only [decide_eq_true_eq] at h1
  exact ⟨h1.1, h1.2, h2⟩

/-- C9: for a registry of hosts and a server-side session whose current context belongs to
some registered host, `lws_ssl_server_name_cb` returns `SSL_TLSEXT_ERR_OK` and either makes
no call, or a server name was requested, `lws_select_vhost` selected a host for that name
and the listening port of the (first) host whose context the session has, and the one call
made is `SSL_set_SSL_CTX` with the selected host's context.  Hence, `lws_select_vhost`
returning only hosts whose `listen_port` is the port it is given, the session is never
rebound to a host on another listening port. -/
theorem server_name_cb_rebinds_on_port (k : Consts)
    (select : List Vhost → Int → String → Option Vhost) (reg : List Vhost) (s : SslSession)
    (hmem : ∃ vh ∈ reg, vh.ssl_ctx = s.ctx) :
    ∃ vh calls, reg.find? (fun v => decide (v.ssl_ctx = s.ctx)) = some vh ∧
      lws_ssl_server_name_cb k select reg (some s) = some (k.SSL_TLSEXT_ERR_OK, calls) ∧
      (calls = [] ∨
        ∃ nm v, s.servername = some nm ∧ select reg vh.listen_port nm = some v ∧
          calls = [Call.SSL_set_SSL_CTX v.ssl_ctx] ∧
          ((∀ l p n u, select l p n = some u → u.listen_port = p) →
            v.listen_port = vh.listen_port)) := by
  obtain ⟨w, hw, hctx⟩ := hmem
  cases hf : reg.find? (fun v => decide (v.ssl_ctx = s.ctx)) with
  | none =>
    have := List.find?_eq_none.1 hf w hw
    simp [hctx] at this
  | some vh =>
    cases hn : s.servername with
    | none =>
      exact ⟨vh, [], rfl, by simp [lws_ssl_server_name_cb, hf, hn], Or.inl rfl⟩
    | some nm =>
      cases hs : select reg vh.listen_port nm with
      | none =>
        exact ⟨vh, [], rfl, by simp [lws_ssl_server_name_cb, hf, hn, hs], Or.inl rfl⟩
      | some v =>
        exact ⟨vh, [Call.SSL_set_SSL_CTX v.ssl_ctx], rfl,
          by simp [lws_ssl_server_name_cb, hf, hn, hs],
          Or.inr ⟨nm, v, rfl, hs, rfl, fun hsel => hsel _ _ _ _ hs⟩⟩

/-- In the example registry a session accepted on port 443 that asks for `b` is rebound to
the host `b` of port 443 (context 3), not to the host `b` of port 8443 (context 2). -/
theorem server_name_cb_example :
    lws_ssl_server_name_cb linuxOpenSSL select_vhost_by_port_and_name exampleRegistry
      (some exampleSession) = some (0, [Call.SSL_set_SSL_CTX (some 3)]) := by
  decide

/-- C9, concrete instance: the example registry and session. -/
theorem server_name_cb_rebinds_on_port_witness :
    ∃ vh calls, exampleRegistry.find? (fun v => decide (v.ssl_ctx = exampleSession.ctx)) =
        some vh ∧
      lws_ssl_server_name_cb linuxOpenSSL select_vhost_by_port_and_name exampleRegistry
        (some exampleSession) = some (linuxOpenSSL.SSL_TLSEXT_ERR_OK, calls) ∧
      (calls = [] ∨
        ∃ nm v, exampleSession.servername = some nm ∧
          select_vhost_by_port_and_name exampleRegistry vh.listen_port nm = some v ∧
          calls = [Call.SSL_set_SSL_CTX v.ssl_ctx] ∧
          ((∀ l p n u, select_vhost_by_port_and_name l p n = some u → u.listen_port = p) →
            v.listen_port = vh.listen_port)) :=
  server_name_cb_rebinds_on_port linuxOpenSSL select_vhost_by_port_and_name exampleRegistry
    exampleSession ⟨_, List.mem_cons_self _ _, rfl⟩

/-! ## The result of `lws_ssl_capable_write` -/

/-- C11: with a live TLS session `lws_ssl_capable_write` returns `n` when `SSL_write` wrote
`n > 0` bytes, and then marks nothing; otherwise it returns `LWS_SSL_CAPABLE_MORE_SERVICE`
when `SSL_get_error` is `SSL_ERROR_WANT_READ` or `SSL_ERROR_WANT_WRITE` and
`LWS_SSL_CAPABLE_ERROR` for any other error (so, the two codes being different,
`LWS_SSL_CAPABLE_MORE_SERVICE` exactly for those two errors), and `lws_set_blocking_send` is
called, once and as the only call made, if and only if the error is
`SSL_ERROR_WANT_WRITE`. -/
theorem capable_write_classifies (k : Consts) (no_ssl : Conn → Int → Int × Conn)
    (eng : WriteEngine) (c : Conn) (len : Int) (hssl : c.ssl ≠ none) :
    (0 < eng.SSL_write →
      lws_ssl_capable_write k no_ssl eng c len = (eng.SSL_write, c)) ∧
    (eng.SSL_write ≤ 0 →
      (eng.SSL_get_error = k.SSL_ERROR_WANT_READ ∨
          eng.SSL_get_error = k.SSL_ERROR_WANT_WRITE →
        (lws_ssl_capable_write k no_ssl eng c len).1 = k.LWS_SSL_CAPABLE_MORE_SERVICE) ∧
      (¬ (eng.SSL_get_error = k.SSL_ERROR_WANT_READ ∨
          eng.SSL_get_error = k.SSL_ERROR_WANT_WRITE) →
        (lws_ssl_capable_write k no_ssl eng c len).1 = k.LWS_SSL_CAPABLE_ERROR) ∧
      (k.LWS_SSL_CAPABLE_MORE_SERVICE ≠ k.LWS_SSL_CAPABLE_ERROR →
        ((lws_ssl_capable_write k no_ssl eng c len).1 = k.LWS_SSL_CAPABLE_MORE_SERVICE ↔
          (eng.SSL_get_error = k.SSL_ERROR_WANT_READ ∨
            eng.SSL_get_error = k.SSL_ERROR_WANT_WRITE))) ∧
      (eng.SSL_get_error = k.SSL_ERROR_WANT_WRITE →
        (lws_ssl_capable_write k no_ssl eng c len).2 =
          { c with calls := c.calls ++ [Call.lws_set_blocking_send] }) ∧
      (eng.SSL_get_error ≠ k.SSL_ERROR_WANT_WRITE →
        (lws_ssl_capable_write k no_ssl eng c len).2 = c) ∧
      (Call.lws_set_blocking_send ∈
          (lws_ssl_capable_write k no_ssl eng c len).2.calls.drop c.calls.length ↔
        eng.SSL_get_error = k.SSL_ERROR_WANT_WRITE)) := by
  constructor
  · intro hpos
    simp [lws_ssl_capable_write, hssl, hpos]
  · intro hle
    have hnp : ¬ eng.SSL_write > 0 := not_lt.2 hle
    by_cases hw : eng.SSL_get_error = k.SSL_ERROR_WANT_WRITE
    · have e : lws_ssl_capable_write k no_ssl eng c len =
          (k.LWS_SSL_CAPABLE_MORE_SERVICE,
            { c with calls := c.calls ++ [Call.lws_set_blocking_send] }) := by
        simp [lws_ssl_capable_write, hssl, hnp, hw]
      rw [e]
      refine ⟨fun _ => rfl, fun hc => absurd (Or.inr hw) hc, fun _ => ?_, fun _ => rfl,
        fun hc => absurd hw hc, ?_⟩
      · exact ⟨fun _ => Or.inr hw, fun _ => rfl⟩
      · simp [hw]
    · by_cases hr : eng.SSL_get_error = k.SSL_ERROR_WANT_READ
      · have e : lws_ssl_capable_write k no_ssl eng c len =
            (k.LWS_SSL_CAPABLE_MORE_SERVICE, c) := by
          simp [lws_ssl_capable_write, hssl, hnp, hw, hr]
          intro h; exact absurd (hr.trans h) hw
        rw [e]
        refine ⟨fun _ => rfl, fun hc => absurd (Or.inl hr) hc, fun _ => ?_,
          fun hc => absurd hc hw, fun _ => rfl, ?_⟩
        · exact ⟨fun _ => Or.inl hr, fun _ => rfl⟩
        · simp [hw]
      · have hno : ¬ (eng.SSL_get_error = k.SSL_ERROR_WANT_READ ∨
            eng.SSL_get_error = k.SSL_ERROR_WANT_WRITE) := fun h => h.elim hr hw
        have e : lws_ssl_capable_write k no_ssl eng c len = (k.LWS_SSL_CAPABLE_ERROR, c) := by
          simp [lws_ssl_capable_write, hssl, hnp, hw, hr]
        rw [e]
        refine ⟨fun hc => absurd hc hno, fun _ => rfl, fun hd => ?_, fun hc => absurd hc hw,
          fun _ => rfl, ?_⟩
        · exact ⟨fun h => absurd h.symm hd, fun h => absurd h hno⟩
        · simp [hw]

/-- C11, concrete instance: `SSL_write` gives -1 and the engine wants a write; the call
returns `LWS_SSL_CAPABLE_MORE_SERVICE` and `lws_set_blocking_send` is called. -/
theorem capable_write_classifies_witness :
    (lws_ssl_capable_write linuxOpenSSL (fun c _ => (0, c)) ⟨-1, 3⟩ exampleConn 10).1 = -2 ∧
      (lws_ssl_capable_write linuxOpenSSL (fun c _ => (0, c)) ⟨-1, 3⟩ exampleConn 10).2.calls =
        [Call.lws_set_blocking_send] :=
  ⟨((capable_write_classifies linuxOpenSSL (fun c _ => (0, c)) ⟨-1, 3⟩ exampleConn 10
      (by decide)).2 (by decide)).1 (Or.inr rfl),
   congrArg Conn.calls (((capable_write_classifies linuxOpenSSL (fun c _ => (0, c)) ⟨-1, 3⟩
      exampleConn 10 (by decide)).2 (by decide)).2.2.2.1 rfl)⟩

/-! ## The accept step decides the server-side handshake -/

theorem ack_pending_accepted (k : Consts) (vh : Vhost) (env : AcceptEnv) (c : Conn)
    (hclear : env.change_pollfd_clear = 0) (hdriven : AcceptStepDriven k vh env)
    (hacc : env.SSL_accept = 1) :
    service_ssl_ack_pending k vh env c =
      service_ssl_accepted env
        { c with
          events := lws_change_pollfd c.events k.LWS_POLLOUT 0
          calls := c.calls ++ [Call.SSL_accept c.ssl] } := by
  unfold service_ssl_ack_pending
  simp only [hclear, ne_eq, not_true_eq_false, if_false, hacc, if_true]
  rcases hdriven with hoff | ⟨h1, h2, h3⟩
  · simp [hoff]
  · have c1 : ¬ (vh.allow_non_ssl_on_ssl_port = true ∧ env.recv ≥ 1 ∧ env.serv_buf0 ≥ 32) :=
      fun h => h1 ⟨h.2.1, h.2.2⟩
    have c2 : ¬ (vh.allow_non_ssl_on_ssl_port = true ∧ env.recv = 0) := fun h => h2 h.2
    have c3 : ¬ (vh.allow_non_ssl_on_ssl_port = true ∧ env.recv < 0 ∧
        (env.errno = k.LWS_EAGAIN ∨ env.errno = k.LWS_EWOULDBLOCK)) := fun h => h3 h.2
    rw [if_neg c1, if_neg c2, if_neg c3]

/-- C12: when control reaches the accept-pending case, the fallback handling does not
intercept the call and clearing `POLLOUT` succeeds, `SSL_accept` is called and decides the
outcome of `lws_server_socket_service_ssl`: a result of 1 sets the mode to
`LWSCM_HTTP_SERVING`, arms `PENDING_TIMEOUT_ESTABLISH_WITH_SERVER` and returns 0; with
another result and `SSL_ERROR_WANT_READ` or `SSL_ERROR_WANT_WRITE` the mode stays
`LWSCM_SSL_ACK_PENDING` and, the poll change succeeding, the call returns 0; with another
result and any other error the call returns 1 and the mode is not
`LWSCM_HTTP_SERVING`. -/
theorem service_ssl_accept_step_decides (k : Consts) (vh : Vhost) (env : AcceptEnv)
    (c : Conn) (accept_fd : Int) (hreach : ReachesAckPending vh env c)
    (hdriven : AcceptStepDriven k vh env) (hclear : env.change_pollfd_clear = 0) :
    (env.SSL_accept = 1 →
      (lws_server_socket_service_ssl k vh env c accept_fd).1 = 0 ∧
      (lws_server_socket_service_ssl k vh env c accept_fd).2.mode =
        ConnMode.LWSCM_HTTP_SERVING ∧
      (lws_server_socket_service_ssl k vh env c accept_fd).2.calls =
        (ack_pending_entry vh env c accept_fd).calls ++
          [Call.SSL_accept (ack_pending_entry vh env c accept_fd).ssl,
            Call.lws_set_timeout PendingTimeout.PENDING_TIMEOUT_ESTABLISH_WITH_SERVER
              env.timeout_secs,
            Call.lws_http2_configure_if_upgraded]) ∧
    (env.SSL_accept ≠ 1 →
      (lws_server_socket_service_ssl k vh env c accept_fd).2.mode =
        ConnMode.LWSCM_SSL_ACK_PENDING ∧
      (lws_server_socket_service_ssl k vh env c accept_fd).2.calls =
        (ack_pending_entry vh env c accept_fd).calls ++
          [Call.SSL_accept (ack_pending_entry vh env c accept_fd).ssl] ∧
      (env.SSL_get_error = k.SSL_ERROR_WANT_READ ∨
          env.SSL_get_error = k.SSL_ERROR_WANT_WRITE →
        env.change_pollfd_rearm = 0 →
        (lws_server_socket_service_ssl k vh env c accept_fd).1 = 0) ∧
      (¬ (env.SSL_get_error = k.SSL_ERROR_WANT_READ ∨
          env.SSL_get_error = k.SSL_ERROR_WANT_WRITE) →
        (lws_server_socket_service_ssl k vh env c accept_fd).1 = 1)) := by
  have hmode := ack_pending_entry_mode vh env c accept_fd hreach
  rw [service_ssl_eq_ack_pending k vh env c accept_fd hreach]
  constructor
  · intro hacc
    rw [ack_pending_accepted k vh env _ hclear hdriven hacc]
    exact ⟨rfl, rfl, by simp [service_ssl_accepted]⟩
  · intro hacc
    rw [ack_pending_accept_step k vh env _ hclear hdriven hacc]
    unfold service_ssl_go_again
    by_cases hr : env.SSL_get_error = k.SSL_ERROR_WANT_READ
    · by_cases hz : env.change_pollfd_rearm = 0
      · simp [hr, hz, hmode]
      · simp [hr, hz, hmode]
    · rw [if_neg hr]
      by_cases hw : env.SSL_get_error = k.SSL_ERROR_WANT_WRITE
      · rw [if_pos hw]
        by_cases hz : env.change_pollfd_rearm = 0
        · rw [if_neg (not_not.2 hz)]
          exact ⟨hmode, rfl, fun _ _ => rfl, fun h => absurd (Or.inr hw) h⟩
        · rw [if_pos hz]
          exact ⟨hmode, rfl, fun _ h => absurd h hz, fun _ => rfl⟩
      · simp [hr, hw, hmode]

/-- C12, concrete instance: `SSL_accept` returns 1 and the connection is established. -/
theorem service_ssl_accept_step_decides_witness :
    (lws_server_socket_service_ssl linuxOpenSSL exampleVhost envAccepted exampleConn 5).1 = 0 ∧
      (lws_server_socket_service_ssl linuxOpenSSL exampleVhost envAccepted
        exampleConn 5).2.mode = ConnMode.LWSCM_HTTP_SERVING :=
  ⟨((service_ssl_accept_step_decides linuxOpenSSL exampleVhost envAccepted exampleConn 5
      (by decide) (by decide) rfl).1 rfl).1,
   ((service_ssl_accept_step_decides linuxOpenSSL exampleVhost envAccepted exampleConn 5
      (by decide) (by decide) rfl).1 rfl).2.1⟩

/-- A fatal accept result on the example connection: the call returns 1 and the mode is
still `LWSCM_SSL_ACK_PENDING`. -/
theorem service_ssl_accept_fatal_example :
    lws_server_socket_service_ssl linuxOpenSSL exampleVhost envAcceptFatal exampleConn 5 =
      (1, { exampleConn with events := 1, calls := [Call.SSL_accept (some 9)] }) := by
  decide

/-! ## The client-side connect step -/

/-- C13 (as amended): when `SSL_connect` in `lws_ssl_client_connect1` fails with
`SSL_ERROR_WANT_READ`, the mode is set to `LWSCM_WSCL_WAITING_SSL`, no forced writable
callback is scheduled (the only call made is `SSL_connect`) and 0 is returned; when it
fails with `SSL_ERROR_WANT_WRITE` (a code other than `SSL_ERROR_WANT_READ`),
`lws_callback_on_writable` is called, the mode is set to `LWSCM_WSCL_WAITING_SSL` and 0 is
returned. -/
theorem client_connect1_retry (k : Consts) (env : ConnectEnv) (c : Conn)
    (hneg : env.SSL_connect < 0) :
    (env.SSL_get_error = k.SSL_ERROR_WANT_READ →
      lws_ssl_client_connect1 k env c =
        (0, { c with
          calls := c.calls ++ [Call.SSL_connect c.ssl]
          mode := ConnMode.LWSCM_WSCL_WAITING_SSL })) ∧
    (env.SSL_get_error = k.SSL_ERROR_WANT_WRITE →
      env.SSL_get_error ≠ k.SSL_ERROR_WANT_READ →
      lws_ssl_client_connect1 k env c =
        (0, { c with
          calls := c.calls ++ [Call.SSL_connect c.ssl] ++ [Call.lws_callback_on_writable]
          mode := ConnMode.LWSCM_WSCL_WAITING_SSL })) := by
  constructor
  · intro hr
    simp [lws_ssl_client_connect1, hneg, hr]
  · intro hw hr
    unfold lws_ssl_client_connect1
    simp only [hneg, if_true]
    rw [if_neg hr, if_pos hw]

/-- C13, concrete instance: a connection in `LWSCM_WSCL_ISSUE_HANDSHAKE` whose connect step
wants a read returns 0 without scheduling a callback. -/
theorem client_connect1_retry_witness :
    lws_ssl_client_connect1 linuxOpenSSL envConnectWantRead exampleClient =
      (0, { exampleClient with
        calls := exampleClient.calls ++ [Call.SSL_connect exampleClient.ssl]
        mode := ConnMode.LWSCM_WSCL_WAITING_SSL }) :=
  (client_connect1_retry linuxOpenSSL envConnectWantRead exampleClient (by decide)).1 rfl

/-- C13 as stated fails: a connection in `LWSCM_WSCL_ISSUE_HANDSHAKE` whose connect step
yields `SSL_ERROR_WANT_READ` does not stay in that mode; it is moved to
`LWSCM_WSCL_WAITING_SSL`, as on `SSL_ERROR_WANT_WRITE`. -/
theorem client_connect1_want_read_changes_mode :
    exampleClient.mode = ConnMode.LWSCM_WSCL_ISSUE_HANDSHAKE ∧
      envConnectWantRead.SSL_connect < 0 ∧
      envConnectWantRead.SSL_get_error = linuxOpenSSL.SSL_ERROR_WANT_READ ∧
      (lws_ssl_client_connect1 linuxOpenSSL envConnectWantRead exampleClient).1 = 0 ∧
      (lws_ssl_client_connect1 linuxOpenSSL envConnectWantRead exampleClient).2.mode =
        ConnMode.LWSCM_WSCL_WAITING_SSL ∧
      (lws_ssl_client_connect1 linuxOpenSSL envConnectWantRead exampleClient).2.mode ≠
        exampleClient.mode := by
  decide

theorem client_connect_error_queue_of_le (k : Consts) (env : ConnectEnv) (n : Int) (c : Conn)
    (hn : n ≤ 0) :
    client_connect_error_queue k env n c =
      if int_of_ulong env.ERR_get_error ≠ k.SSL_ERROR_NONE then Sum.inl (0, c)
      else Sum.inr c := by
  unfold client_connect_error_queue
  rw [if_pos hn]

theorem client_connect1_of_failed (k : Consts) (env : ConnectEnv) (c : Conn)
    (hfail : ConnectFailed k env) :
    lws_ssl_client_connect1 k env c =
      if int_of_ulong env.ERR_get_error ≠ k.SSL_ERROR_NONE then
        (0, { c with calls := c.calls ++ [Call.SSL_connect c.ssl] })
      else (1, { c with calls := c.calls ++ [Call.SSL_connect c.ssl] }) := by
  obtain ⟨hle, hretry⟩ := hfail
  have h10 : (-1 : Int) ≤ 0 := by decide
  unfold lws_ssl_client_connect1
  by_cases hneg : env.SSL_connect < 0
  · obtain ⟨hr, hw⟩ := hretry hneg
    simp only [if_pos hneg, if_neg hr, if_neg hw,
      client_connect_error_queue_of_le k env (-1) _ h10]
    by_cases hq : int_of_ulong env.ERR_get_error ≠ k.SSL_ERROR_NONE
    · simp only [if_pos hq]
    · simp only [if_neg hq]
  · simp only [if_neg hneg, client_connect_error_queue_of_le k env _ _ hle]
    by_cases hq : int_of_ulong env.ERR_get_error ≠ k.SSL_ERROR_NONE
    · simp only [if_pos hq]
    · simp only [if_neg hq]

theorem client_connect2_of_failed (k : Consts) (env : ConnectEnv) (c : Conn)
    (hmode : c.mode = ConnMode.LWSCM_WSCL_WAITING_SSL) (hfail : ConnectFailed k env) :
    lws_ssl_client_connect2 k env c =
      if int_of_ulong env.ERR_get_error ≠ k.SSL_ERROR_NONE then
        (0, { c with calls := c.calls ++ [Call.SSL_connect c.ssl] })
      else client_connect2_verify k env
        { c with calls := c.calls ++ [Call.SSL_connect c.ssl] } := by
  obtain ⟨hle, hretry⟩ := hfail
  have h10 : (-1 : Int) ≤ 0 := by decide
  unfold lws_ssl_client_connect2 client_connect2_waiting client_connect_error_queue
  by_cases hneg : env.SSL_connect < 0
  · obtain ⟨hr, hw⟩ := hretry hneg
    simp only [if_pos hmode, if_pos hneg, if_neg hr, if_neg hw, if_pos h10]
    by_cases hq : int_of_ulong env.ERR_get_error ≠ k.SSL_ERROR_NONE
    · simp only [if_pos hq]
    · simp only [if_neg hq]
  · simp only [if_pos hmode, if_neg hneg, if_pos hle]
    by_cases hq : int_of_ulong env.ERR_get_error ≠ k.SSL_ERROR_NONE
    · simp only [if_pos hq]
    · simp only [if_neg hq]

theorem client_connect1_of_retry (k : Consts) (env : ConnectEnv) (c : Conn)
    (hneg : env.SSL_connect < 0)
    (hretry : env.SSL_get_error = k.SSL_ERROR_WANT_READ ∨
      env.SSL_get_error = k.SSL_ERROR_WANT_WRITE) :
    (lws_ssl_client_connect1 k env c).1 = 0 := by
  unfold lws_ssl_client_connect1
  simp only [hneg, if_true]
  by_cases hr : env.SSL_get_error = k.SSL_ERROR_WANT_READ
  · rw [if_pos hr]
  · rw [if_neg hr, if_pos (hretry.resolve_left hr)]

theorem client_connect2_of_retry (k : Consts) (env : ConnectEnv) (c : Conn)
    (hmode : c.mode = ConnMode.LWSCM_WSCL_WAITING_SSL) (hneg : env.SSL_connect < 0)
    (hretry : env.SSL_get_error = k.SSL_ERROR_WANT_READ ∨
      env.SSL_get_error = k.SSL_ERROR_WANT_WRITE) :
    (lws_ssl_client_connect2 k env c).1 = 0 := by
  unfold lws_ssl_client_connect2 client_connect2_waiting
  simp only [hmode, hneg, if_true]
  by_cases hr : env.SSL_get_error = k.SSL_ERROR_WANT_READ
  · rw [if_pos hr]
  · rw [if_neg hr, if_pos (hretry.resolve_left hr)]

theorem connectFailed_or_retry (k : Consts) (env : ConnectEnv) (hle : env.SSL_connect ≤ 0) :
    ConnectFailed k env ∨
      (env.SSL_connect < 0 ∧ (env.SSL_get_error = k.SSL_ERROR_WANT_READ ∨
        env.SSL_get_error = k.SSL_ERROR_WANT_WRITE)) := by
  by_cases hneg : env.SSL_connect < 0
  · by_cases hr : env.SSL_get_error = k.SSL_ERROR_WANT_READ
    · exact Or.inr ⟨hneg, Or.inl hr⟩
    · by_cases hw : env.SSL_get_error = k.SSL_ERROR_WANT_WRITE
      · exact Or.inr ⟨hneg, Or.inr hw⟩
      · exact Or.inl ⟨hle, fun _ => ⟨hr, hw⟩⟩
  · exact Or.inl ⟨hle, fun h => absurd h hneg⟩

/-- C14 (as amended): when `SSL_connect` returned `<= 0`, `lws_ssl_client_connect1` and
`lws_ssl_client_connect2` (in `LWSCM_WSCL_WAITING_SSL` mode) return 1 only if the failure
is neither retry-read nor retry-write and `ERR_get_error()`, as an `int`, is
`SSL_ERROR_NONE`.  For such a failure with another value of `ERR_get_error()` both return 0,
the only call made being `SSL_connect` (no verification, no close); with
`SSL_ERROR_NONE` `lws_ssl_client_connect1` returns 1 and `lws_ssl_client_connect2` goes on to
the peer-certificate check. -/
theorem client_connect_failure (k : Consts) (env : ConnectEnv) (c : Conn)
    (hle : env.SSL_connect ≤ 0) :
    ((lws_ssl_client_connect1 k env c).1 = 1 →
      ConnectFailed k env ∧ int_of_ulong env.ERR_get_error = k.SSL_ERROR_NONE) ∧
    (c.mode = ConnMode.LWSCM_WSCL_WAITING_SSL → (lws_ssl_client_connect2 k env c).1 = 1 →
      ConnectFailed k env ∧ int_of_ulong env.ERR_get_error = k.SSL_ERROR_NONE) ∧
    (ConnectFailed k env → int_of_ulong env.ERR_get_error ≠ k.SSL_ERROR_NONE →
      lws_ssl_client_connect1 k env c =
        (0, { c with calls := c.calls ++ [Call.SSL_connect c.ssl] }) ∧
      (c.mode = ConnMode.LWSCM_WSCL_WAITING_SSL →
        lws_ssl_client_connect2 k env c =
          (0, { c with calls := c.calls ++ [Call.SSL_connect c.ssl] }))) ∧
    (ConnectFailed k env → int_of_ulong env.ERR_get_error = k.SSL_ERROR_NONE →
      lws_ssl_client_connect1 k env c =
        (1, { c with calls := c.calls ++ [Call.SSL_connect c.ssl] }) ∧
      (c.mode = ConnMode.LWSCM_WSCL_WAITING_SSL →
        lws_ssl_client_connect2 k env c =
          client_connect2_verify k env
            { c with calls := c.calls ++ [Call.SSL_connect c.ssl] })) := by
  refine ⟨?_, ?_, ?_, ?_⟩
  · intro h1
    rcases connectFailed_or_retry k env hle with hf | ⟨hneg, hretry⟩
    · refine ⟨hf, ?_⟩
      by_contra hq
      rw [client_connect1_of_failed k env c hf, if_pos hq] at h1
      exact absurd (show (0 : Int) = 1 from h1) (by decide)
    · rw [client_connect1_of_retry k env c hneg hretry] at h1
      exact absurd h1 (by decide)
  · intro hmode h1
    rcases connectFailed_or_retry k env hle with hf | ⟨hneg, hretry⟩
    · refine ⟨hf, ?_⟩
      by_contra hq
      rw [client_connect2_of_failed k env c hmode hf, if_pos hq] at h1
      exact absurd (show (0 : Int) = 1 from h1) (by decide)
    · rw [client_connect2_of_retry k env c hmode hneg hretry] at h1
      exact absurd h1 (by decide)
  · intro hf hq
    refine ⟨?_, fun hmode => ?_⟩
    · rw [client_connect1_of_failed k env c hf, if_pos hq]
    · rw [client_connect2_of_failed k env c hmode hf, if_pos hq]
  · intro hf hq
    have hq2 : ¬ int_of_ulong env.ERR_get_error ≠ k.SSL_ERROR_NONE := fun h => h hq
    refine ⟨?_, fun hmode => ?_⟩
    · rw [client_connect1_of_failed k env c hf, if_neg hq2]
    · rw [client_connect2_of_failed k env c hmode hf, if_neg hq2]

/-- C14, concrete instance: `SSL_connect` returns 0 and the error queue holds an error;
`lws_ssl_client_connect1` returns 0. -/
theorem client_connect_failure_witness :
    lws_ssl_client_connect1 linuxOpenSSL envConnectFailedLoud exampleClient =
      (0, { exampleClient with
        calls := exampleClient.calls ++ [Call.SSL_connect exampleClient.ssl] }) :=
  ((client_connect_failure linuxOpenSSL envConnectFailedLoud exampleClient (by decide)).2.2.1
    (by decide) (by decide)).1

/-- C14 as stated fails: `SSL_connect` returns 0 (no success, and neither retry) while the
error queue is empty, and yet `lws_ssl_client_connect1` returns 1 and
`lws_ssl_client_connect2`, in `LWSCM_WSCL_WAITING_SSL` mode, goes on to the certificate
check and returns 1. -/
theorem client_connect_failed_quiet_returns_one :
    envConnectFailedQuiet.SSL_connect ≤ 0 ∧
      ConnectFailed linuxOpenSSL envConnectFailedQuiet ∧
      exampleWaitingClient.mode = ConnMode.LWSCM_WSCL_WAITING_SSL ∧
      (lws_ssl_client_connect1 linuxOpenSSL envConnectFailedQuiet exampleClient).1 = 1 ∧
      (lws_ssl_client_connect2 linuxOpenSSL envConnectFailedQuiet exampleWaitingClient).1 = 1 := by
  decide

/-! ## What the private-data slot of a session holds -/

theorem SSL_get_ex_data_append_set (ssl : Option Nat) (d : Nat) (l : List Call) :
    SSL_get_ex_data ssl (l ++ [Call.SSL_set_ex_data ssl d]) = some d := by
  induction l with
  | nil => simp [SSL_get_ex_data]
  | cons a t ih =>
    cases a <;> simp [SSL_get_ex_data, ih]

/-- In `lws_ssl_client_bio_create` the slot of the new session is set last, to
`wsi->context`. -/
theorem client_bio_create_slot (have_sni : Bool) (env : BioCreateEnv) (vh : Vhost)
    (c : Conn) :
    SSL_get_ex_data env.SSL_new (lws_ssl_client_bio_create have_sni env vh c).2.1.calls =
      some c.context := by
  unfold lws_ssl_client_bio_create
  cases have_sni <;> exact SSL_get_ex_data_append_set _ _ _

/-- C15, evaluated on a connection owned by the context at address 1000 and the virtual
host at address 2000: after the init step of `lws_server_socket_service_ssl`, and after
`lws_ssl_client_bio_create`, the private-data slot of the session holds 1000, the address of
the context, not 2000, the address of the virtual host; `OpenSSL_verify_callback` then
takes the object at 1000 for the virtual host. -/
theorem ex_data_slot_holds_context :
    exampleInitConn.context = 1000 ∧ exampleInitConn.vhost = 2000 ∧
      SSL_get_ex_data (some 9)
        (lws_server_socket_service_ssl linuxOpenSSL exampleVhost envWantWrite
          exampleInitConn 5).2.calls = some 1000 ∧
      SSL_get_ex_data (some 9)
        (lws_ssl_client_bio_create true ⟨some 9, some 40⟩ exampleVhost
          exampleInitConn).2.1.calls = some 1000 ∧
      (OpenSSL_verify_callback 1000 (fun _ => 0)).2 = 1000 ∧
      (OpenSSL_verify_callback 1000 (fun _ => 0)).2 ≠ exampleInitConn.vhost := by
  decide

/-! ## Removal from the pending-read list refines erasure from the member sequence -/

theorem erase_member_eq_erase {l : List Nat} (hl : l.Nodup) (w : Nat) :
    erase_member l w = l.erase w := by
  rw [hl.erase_eq_filter]
  unfold erase_member
  congr 1
  funext x
  by_cases hx : x = w <;> simp [hx]

/-- In a well-formed list the head has no predecessor. -/
theorem Represents.head_prev {st : PendingState} {l : List Nat} (h : Represents st l)
    (a : Nat) (ha : st.pending_read_list = some a) : st.pending_read_list_prev a = none := by
  rw [h.head] at ha
  rw [h.prev]
  exact (prevIn_eq_none_iff h.nodup (List.mem_of_mem_head? ha)).2 ha

/-- In a well-formed list the links are mutually consistent. -/
theorem Represents.links_consistent {st : PendingState} {l : List Nat} (h : Represents st l)
    (a b : Nat) :
    st.pending_read_list_next a = some b ↔ st.pending_read_list_prev b = some a := by
  rw [h.next, h.prev]
  exact nextIn_eq_some_iff_prevIn h.nodup a b

/-- The representation invariant is the three listed conditions together with the
condition that connections outside the list are unlinked. -/
theorem represents_iff_listed (st : PendingState) (l : List Nat) :
    Represents st l ↔ ListedWellFormed st l ∧ UnlinkedOutside st l := by
  constructor
  · intro h
    refine ⟨⟨h.nodup, h.head, fun x _ => h.next x, h.head_prev, h.links_consistent⟩, ?_⟩
    intro x hx
    exact ⟨by rw [h.prev]; exact prevIn_of_not_mem hx,
      by rw [h.next]; exact nextIn_of_not_mem hx⟩
  · rintro ⟨⟨hnd, hhead, hnext, _, hcons⟩, hout⟩
    have hn : ∀ x, st.pending_read_list_next x = nextIn l x := by
      intro x
      by_cases hx : x ∈ l
      · exact hnext x hx
      · rw [(hout x hx).2, nextIn_of_not_mem hx]
    refine ⟨hnd, hhead, hn, ?_⟩
    intro b
    apply Option.ext
    intro a
    show st.pending_read_list_prev b = some a ↔ prevIn l b = some a
    rw [← hcons a b, hn a]
    exact nextIn_eq_some_iff_prevIn hnd a b

/-- C16 (as amended): on a pending-read list with member sequence `l` that is well formed
(head without predecessor, mutually consistent links, no connection twice) and outside of
which every connection has both links `NULL`, `lws_ssl_remove_wsi_from_buffered_list`
leaves such a list again, whose member sequence is `l` with `wsi` erased and the other
members in their original order; `wsi`'s `prev` and `next` are `NULL` afterwards, nothing
at all changes when `wsi` was not on the list, and calling it twice has the effect of
calling it once. -/
theorem remove_refines_erase_member (st : PendingState) (l : List Nat) (w : Nat)
    (hwf : ListedWellFormed st l) (hout : UnlinkedOutside st l) :
    ListedWellFormed (lws_ssl_remove_wsi_from_buffered_list st w) (erase_member l w) ∧
      UnlinkedOutside (lws_ssl_remove_wsi_from_buffered_list st w) (erase_member l w) ∧
      Represents (lws_ssl_remove_wsi_from_buffered_list st w) (erase_member l w) ∧
      (∀ x, x ∈ erase_member l w ↔ x ∈ l ∧ x ≠ w) ∧
      (lws_ssl_remove_wsi_from_buffered_list st w).pending_read_list_prev w = none ∧
      (lws_ssl_remove_wsi_from_buffered_list st w).pending_read_list_next w = none ∧
      (w ∉ l → lws_ssl_remove_wsi_from_buffered_list st w = st) ∧
      lws_ssl_remove_wsi_from_buffered_list (lws_ssl_remove_wsi_from_buffered_list st w) w =
        lws_ssl_remove_wsi_from_buffered_list st w := by
  have h : Represents st l := (represents_iff_listed st l).2 ⟨hwf, hout⟩
  have hrep : Represents (lws_ssl_remove_wsi_from_buffered_list st w) (erase_member l w) := by
    rw [erase_member_eq_erase h.nodup]
    exact h.remove w
  have hnot : w ∉ erase_member l w := by
    simp [erase_member]
  obtain ⟨hwf2, hout2⟩ := (represents_iff_listed _ _).1 hrep
  refine ⟨hwf2, hout2, hrep, ?_, (hout2 w hnot).1, (hout2 w hnot).2,
    fun hw => remove_of_not_mem h hw, remove_of_not_mem hrep hnot⟩
  intro x
  simp [erase_member]

theorem listedWellFormed_pendingOf {l : List Nat} (hl : l.Nodup) :
    ListedWellFormed (pendingOf l) l ∧ UnlinkedOutside (pendingOf l) l :=
  (represents_iff_listed _ _).1 (represents_pendingOf hl)

/-- C16, concrete instance: removing connection 7 from the list 3, 7, 5 leaves the list
3, 5. -/
theorem remove_refines_erase_member_witness :
    Represents (lws_ssl_remove_wsi_from_buffered_list (pendingOf [3, 7, 5]) 7) [3, 5] :=
  (remove_refines_erase_member (pendingOf [3, 7, 5]) [3, 7, 5] 7
    (listedWellFormed_pendingOf (by decide)).1
    (listedWellFormed_pendingOf (by decide)).2).2.2.1

/-- C16 as stated fails when a connection outside the list has stale links: in
`staleLinks` the list is the single connection 3, the head has no predecessor, the links
are mutually consistent and no connection occurs twice, yet removing connection 7, which
is not on the list, moves the head pointer from 3 to 9. -/
theorem remove_stale_non_member_changes_list :
    ListedWellFormed staleLinks [3] ∧ (7 : Nat) ∉ [3] ∧
      staleLinks.pending_read_list = some 3 ∧
      (lws_ssl_remove_wsi_from_buffered_list staleLinks 7).pending_read_list = some 9 ∧
      lws_ssl_remove_wsi_from_buffered_list staleLinks 7 ≠ staleLinks := by
  have hhead : (lws_ssl_remove_wsi_from_buffered_list staleLinks 7).pending_read_list =
      some 9 := by decide
  refine ⟨⟨by decide, rfl, ?_, ?_, ?_⟩, by decide, rfl, hhead, ?_⟩
  · intro x hx
    have hx3 : x = 3 := by simpa using hx
    subst hx3
    decide
  · intro a ha
    have ha3 : a = 3 := (Option.some.inj ha).symm
    subst ha3
    decide
  · intro a b
    unfold staleLinks
    by_cases ha : a = 7 <;> by_cases hb : b = 9 <;> simp [ha, hb, eq_comm]
  · intro heq
    rw [heq] at hhead
    exact absurd hhead (by decide)

/-- Following the links of the example after the removal reads off 3, 5, and connection 7
is unlinked. -/
theorem remove_example_walk :
    walk (lws_ssl_remove_wsi_from_buffered_list (pendingOf [3, 7, 5]) 7) 3
        (lws_ssl_remove_wsi_from_buffered_list (pendingOf [3, 7, 5]) 7).pending_read_list =
      [3, 5] ∧
    (lws_ssl_remove_wsi_from_buffered_list (pendingOf [3, 7, 5]) 7).pending_read_list_prev 7 =
      none ∧
    (lws_ssl_remove_wsi_from_buffered_list (pendingOf [3, 7, 5]) 7).pending_read_list_next 7 =
      none := by
  decide

end LwsSsl
